import Mathlib

/-!
Verification of the Spotify API diagnostic harness (`SpotifyAPITest.py`).

The Python script is embedded shallowly:
* `JSON` models the Python values handed back by the remote client library
  (`spotipy`): dictionaries, lists, strings, numbers, booleans and `None`.
* `Client` models an authenticated `spotipy.Spotify` handle as a record of
  fallible remote calls; `World` packs the process environment together with
  the two constructors (`SpotifyClientCredentials`, `spotipy.Spotify`).
* `M` is a state-plus-exception monad over `Core` (the mutable fields of the
  `SpotifyAPITester` instance plus the console output and an instrumented
  trace of remote calls).  Each `test_*` method body is translated into `M`
  statement by statement; Python exceptions become the `Res.err` outcome and
  `try`/`except Exception` becomes `pyTry`.
* The full checks prepend their `print_header` banner at the `EffM` level,
  where the output stream distinguishes banner lines from ordinary prints,
  and `run_all` mirrors `run_all_tests` including its per-test `try`/`except`.
-/

namespace Spotify

/-- Python values returned by the client library (the JSON-shaped data the
script consumes). Numbers are modelled as integers; no claim concerns
fractional numeric values. -/
inductive JSON where
  | null : JSON
  | bool (b : Bool) : JSON
  | num (n : Int) : JSON
  | str (s : String) : JSON
  | arr (xs : List JSON) : JSON
  | obj (fields : List (String × JSON)) : JSON

/-- Python truthiness of a value: `None`, `False`, `0`, `""`, `[]`, `{ }`
are falsy, everything else is truthy. -/
def truthy : JSON → Bool
  | .null => false
  | .bool b => b
  | .num n => decide (n ≠ 0)
  | .str s => !s.isEmpty
  | .arr xs => !xs.isEmpty
  | .obj fs => !fs.isEmpty

/-- First binding of a key in a Python dict, insertion order. -/
def fieldLookup : List (String × JSON) → String → Option JSON
  | [], _ => none
  | (k, v) :: rest, key => if k = key then some v else fieldLookup rest key

/-- Partial semantics of the Python subscript `j[k]` with a string key:
defined exactly on dictionaries that contain the key. -/
def jGet : JSON → String → Option JSON
  | .obj fs, k => fieldLookup fs k
  | _, _ => none

/-- Partial semantics of the Python subscript `j[i]` with an integer index:
defined on lists (and strings, yielding a one-character string). -/
def jIdx : JSON → Nat → Option JSON
  | .arr xs, i => xs.get? i
  | .str s, i => (s.data.get? i).map (fun ch => JSON.str (String.mk [ch]))
  | _, _ => none

def startsWithL : List Char → List Char → Bool
  | [], _ => true
  | _ :: _, [] => false
  | a :: as, b :: bs => a = b && startsWithL as bs

def containsSub : List Char → List Char → Bool
  | n, [] => n.isEmpty
  | n, c :: rest => startsWithL n (c :: rest) || containsSub n rest

def listHasStr : List JSON → String → Bool
  | [], _ => false
  | x :: rest, k => (match x with | .str s => decide (s = k) | _ => false) || listHasStr rest k

/-- Partial semantics of Python `k in j`: key membership for dicts, element
membership for lists, substring for strings; a `TypeError` (modelled as
`none`) otherwise. -/
def pyInPure (k : String) : JSON → Option Bool
  | .obj fs => some (fieldLookup fs k).isSome
  | .arr xs => some (listHasStr xs k)
  | .str s => some (containsSub k.data s.data)
  | _ => none

/-- Partial semantics of the Python slice `j[:3]`. -/
def slicePure : JSON → Option JSON
  | .arr xs => some (.arr (xs.take 3))
  | .str s => some (.str (String.mk (s.data.take 3)))
  | _ => none

/-- Partial semantics of Python iteration over a value. -/
def iterPure : JSON → Option (List JSON)
  | .arr xs => some xs
  | .str s => some (s.data.map (fun ch => JSON.str (String.mk [ch])))
  | .obj fs => some (fs.map (fun p => JSON.str p.1))
  | _ => none

/-- Partial semantics of interpolation with the `:,` format spec (ints and
bools are accepted, anything else raises). -/
def fmtCommaPure : JSON → Option String
  | .num n => some (toString n)
  | .bool b => some (if b then "1" else "0")
  | _ => none

/-- Whether the format spec `:,` accepts the value. -/
def fmtCommaOk (j : JSON) : Bool := (fmtCommaPure j).isSome

/-- Partial semantics of interpolation with the `:.2f` format spec. -/
def fmtF2Pure : JSON → Option String
  | .num n => some (toString n ++ ".00")
  | .bool b => some (if b then "1.00" else "0.00")
  | _ => none

/-- Whether the format spec `:.2f` accepts the value. -/
def fmtF2Ok (j : JSON) : Bool := (fmtF2Pure j).isSome

/-- Partial semantics of Python `j.get(k, d)`: only dicts have the
attribute. -/
def dictGetPure (j : JSON) (k : String) (d : JSON) : Option JSON :=
  match j with
  | .obj fs => some ((fieldLookup fs k).getD d)
  | _ => none

mutual
/-- Python `str()` of a value, as interpolated into the f-strings of the
script.  Container rendering is approximate; no claim depends on it. -/
def pyStr : JSON → String
  | .null => "None"
  | .bool b => if b then "True" else "False"
  | .num n => toString n
  | .str s => s
  | .arr xs => "[" ++ pyStrL xs ++ "]"
  | .obj fs => "\x7b" ++ pyStrF fs ++ "\x7d"

def pyStrL : List JSON → String
  | [] => ""
  | [x] => pyStr x
  | x :: y :: rest => pyStr x ++ ", " ++ pyStrL (y :: rest)

def pyStrF : List (String × JSON) → String
  | [] => ""
  | [(k, v)] => k ++ ": " ++ pyStr v
  | (k, v) :: q :: rest => k ++ ": " ++ pyStr v ++ ", " ++ pyStrF (q :: rest)
end

/-- An authenticated client handle: the four spotipy endpoints the script
uses, each a fallible remote call. -/
structure Client where
  search : String → String → Nat → Except String JSON
  playlist : String → Except String JSON
  playlist_tracks : String → Nat → Except String JSON
  audio_features : JSON → Except String JSON

/-- The ambient world: the process environment (after `load_dotenv`) and the
two constructors `SpotifyClientCredentials` and `spotipy.Spotify` (the latter
taking the auth manager, the request timeout and the optional retry count). -/
structure World where
  env : String → Option String
  mkAuth : Option String → Option String → Except String Nat
  mkClient : Nat → Nat → Option Nat → Except String Client

/-- Instrumentation: one entry per remote-library invocation the script
performs. -/
inductive CallEv where
  | search (q ty : String) (lim : Nat)
  | playlistCall (id : String)
  | playlistTracksCall (id : String) (lim : Nat)
  | audioFeaturesCall (arg : JSON)
  | clientCredentials
  | spotifyClient

/-- The mutable state of a `SpotifyAPITester` instance: the `results` dict
(as the ordered association list Python dicts are), the shared `sp` handle,
plus the instrumented call trace and the printed lines. -/
structure Core where
  results : List (String × Bool)
  sp : Option Client
  calls : List CallEv
  lines : List String

/-- Outcome of a Python statement sequence: normal value or a raised
exception, in both cases with the state it left behind. -/
inductive Res (α : Type) where
  | ok (a : α) (c : Core) : Res α
  | err (e : String) (c : Core) : Res α

/-- The embedding monad: state passing with exceptions. -/
def M (α : Type) : Type := Core → Res α

def M.pure {α} (a : α) : M α := fun c => .ok a c

def M.bind {α β} (m : M α) (k : α → M β) : M β := fun c =>
  match m c with
  | .ok a d => k a d
  | .err e d => .err e d

instance : Monad M where
  pure := M.pure
  bind := M.bind

@[simp] theorem bind_def {α β} (m : M α) (k : α → M β) : (m >>= k) = M.bind m k := rfl

@[simp] theorem pure_def {α} (a : α) : (pure a : M α) = M.pure a := rfl

@[simp] theorem M.bind_apply {α β} (m : M α) (k : α → M β) (c : Core) :
    M.bind m k c = match m c with | .ok a d => k a d | .err e d => .err e d := rfl

@[simp] theorem M.pure_apply {α} (a : α) (c : Core) : M.pure a c = .ok a c := rfl

/-- Raise a Python exception. -/
def raise {α} (e : String) : M α := fun c => .err e c

/-- A `print(...)` call: appends one line to the console. -/
def emit (s : String) : M Unit := fun c => .ok () { c with lines := c.lines ++ [s] }

def getCore : M Core := fun c => .ok c c

def setSp (v : Option Client) : M Unit := fun c => .ok () { c with sp := v }

/-- Python dict assignment `d[k] = b`: update in place, or append a new key. -/
def pySetItem : List (String × Bool) → String → Bool → List (String × Bool)
  | [], k, b => [(k, b)]
  | (k', v) :: rest, k, b => if k' = k then (k', b) :: rest else (k', v) :: pySetItem rest k b

/-- `self.results[k] = b`. -/
def setResult (k : String) (b : Bool) : M Unit := fun c =>
  .ok () { c with results := pySetItem c.results k b }

def recordCall (e : CallEv) : M Unit := fun c => .ok () { c with calls := c.calls ++ [e] }

def liftExc {α} (x : Except String α) : M α := fun c =>
  match x with
  | .ok a => .ok a c
  | .error e => .err e c

/-- `try: m except Exception as e: h e` — note that state changes made before
the exception was raised persist into the handler, as in Python. -/
def pyTry {α} (m : M α) (h : String → M α) : M α := fun c =>
  match m c with
  | .ok a d => .ok a d
  | .err e d => h e d

/-- `self.sp` followed by an attribute access: raises on `None`. -/
def getSp : M Client := fun c =>
  match c.sp with
  | some cl => .ok cl c
  | none => .err "AttributeError: NoneType object has no attribute" c

/-- Subscript `j[k]` as a statement: `KeyError` / `TypeError` raise. -/
def getItemS (j : JSON) (k : String) : M JSON := fun c =>
  match jGet j k with
  | some v => .ok v c
  | none => .err (match j with
      | .obj _ => "KeyError: " ++ k
      | _ => "TypeError: object is not subscriptable") c

/-- Subscript `j[i]` as a statement: `IndexError` / `TypeError` raise. -/
def getIdx (j : JSON) (i : Nat) : M JSON := fun c =>
  match jIdx j i with
  | some v => .ok v c
  | none => .err (match j with
      | .arr _ => "IndexError: list index out of range"
      | .str _ => "IndexError: string index out of range"
      | _ => "TypeError: object is not subscriptable") c

/-- `k in j` as a statement. -/
def pyIn (k : String) (j : JSON) : M Bool := fun c =>
  match pyInPure k j with
  | some b => .ok b c
  | none => .err "TypeError: argument is not a container" c

/-- `j.get(k, d)` as a statement. -/
def dictGet (j : JSON) (k : String) (d : JSON) : M JSON := fun c =>
  match dictGetPure j k d with
  | some v => .ok v c
  | none => .err "AttributeError: object has no attribute get" c

/-- Interpolation with the `:,` format spec, as a statement. -/
def fmtComma (j : JSON) : M String := fun c =>
  match fmtCommaPure j with
  | some s => .ok s c
  | none => .err "TypeError: unsupported format string" c

/-- Interpolation with the `:.2f` format spec, as a statement. -/
def fmtF2 (j : JSON) : M String := fun c =>
  match fmtF2Pure j with
  | some s => .ok s c
  | none => .err "TypeError: unsupported format string" c

/-- The Python slice `j[:3]` as a statement. -/
def pySlice3 (j : JSON) : M JSON := fun c =>
  match slicePure j with
  | some v => .ok v c
  | none => .err "TypeError: unhashable type slice" c

/-- Iteration over `j` as a statement. -/
def pyIterate (j : JSON) : M (List JSON) := fun c =>
  match iterPure j with
  | some l => .ok l c
  | none => .err "TypeError: object is not iterable" c

/-- Short-circuiting `j and m` where the left operand is already a value. -/
def pyAnd (j : JSON) (m : M Bool) : M Bool := if truthy j then m else pure false

/-- `self.sp.search(q, type, limit)`. -/
def callSearch (q ty : String) (lim : Nat) : M JSON := do
  let cl ← getSp
  recordCall (.search q ty lim)
  liftExc (cl.search q ty lim)

/-- `self.sp.playlist(id)`. -/
def callPlaylist (id : String) : M JSON := do
  let cl ← getSp
  recordCall (.playlistCall id)
  liftExc (cl.playlist id)

/-- `self.sp.playlist_tracks(id, limit)`. -/
def callPlaylistTracks (id : String) (lim : Nat) : M JSON := do
  let cl ← getSp
  recordCall (.playlistTracksCall id lim)
  liftExc (cl.playlist_tracks id lim)

/-- `self.sp.audio_features(arg)`. -/
def callAudioFeatures (arg : JSON) : M JSON := do
  let cl ← getSp
  recordCall (.audioFeaturesCall arg)
  liftExc (cl.audio_features arg)

/-- Python `a or b` on optional strings (`os.getenv` results). -/
def pyOr (a b : Option String) : Option String :=
  match a with
  | some s => if s.isEmpty then b else some s
  | none => b

/-- Truthiness of an `os.getenv` result. -/
def strTruthy : Option String → Bool
  | some s => !s.isEmpty
  | none => false

attribute [simp] raise emit getCore setSp setResult recordCall liftExc pyTry getSp
  getItemS getIdx pyIn dictGet fmtComma fmtF2 pySlice3 pyIterate pyAnd
  callSearch callPlaylist callPlaylistTracks callAudioFeatures

/-- Body of `test_environment_variables` (after its `print_header`). -/
def envBody (w : World) : M (Option Bool) := do
  let client_id := pyOr (w.env "CLIENT_ID") (w.env "SPOTIFY_CLIENT_ID")
  let client_secret := pyOr (w.env "CLIENT_SECRET") (w.env "SPOTIFY_CLIENT_SECRET")
  emit ("CLIENT_ID: " ++ (if strTruthy client_id then "✅ Found" else "❌ Missing"))
  emit ("CLIENT_SECRET: " ++ (if strTruthy client_secret then "✅ Found" else "❌ Missing"))
  if strTruthy client_id && strTruthy client_secret then do
    emit "✅ All environment variables are set!"
    setResult "environment" true
    pure (some true)
  else do
    emit "❌ Missing environment variables!"
    emit "ℹ️  Please check your .env file"
    pure (some false)

/-- Spec-side reading of "the credential is present and non-empty under
either of its two accepted environment-variable names". -/
def credPresent (w : World) (k1 k2 : String) : Bool :=
  strTruthy (w.env k1) || strTruthy (w.env k2)

/-- Spec-side success condition of the environment check: both credentials
present and non-empty. -/
def envRequired (w : World) : Bool :=
  credPresent w "CLIENT_ID" "SPOTIFY_CLIENT_ID" &&
  credPresent w "CLIENT_SECRET" "SPOTIFY_CLIENT_SECRET"

/-- Console lines a computation leaves behind (projection helper). -/
def afterLines {α} (m : M α) (c : Core) : List String :=
  match m c with
  | .ok _ d => d.lines
  | .err _ d => d.lines

/-- Call-trace a computation leaves behind (projection helper). -/
def afterCalls {α} (m : M α) (c : Core) : List CallEv :=
  match m c with
  | .ok _ d => d.calls
  | .err _ d => d.calls

/-- Full state a computation leaves behind (projection helper). -/
def coreAfter {α} (m : M α) (c : Core) : Core :=
  match m c with
  | .ok _ d => d
  | .err _ d => d

/-- The value a computation returns normally, if it does not raise. -/
def valAfter {α} (m : M α) (c : Core) : Option α :=
  match m c with
  | .ok a _ => some a
  | .err _ _ => none

theorem strTruthy_pyOr (a b : Option String) :
    strTruthy (pyOr a b) = (strTruthy a || strTruthy b) := by
  cases a with
  | none => simp [pyOr, strTruthy]
  | some s =>
    by_cases h : s.isEmpty <;> simp [pyOr, strTruthy, h]

/-- Full characterisation of the environment-check body: it always returns an
explicit boolean, that boolean is `envRequired`, the `environment` entry is
set to `true` exactly on success, and neither `sp` nor the call trace is
touched. -/
theorem envBody_char (w : World) (c : Core) :
    envBody w c = Res.ok (some (envRequired w))
      ⟨if envRequired w then pySetItem c.results "environment" true else c.results,
       c.sp, c.calls, afterLines (envBody w) c⟩ := by
  obtain ⟨res, sp, calls, lines⟩ := c
  have he : envRequired w =
      (strTruthy (pyOr (w.env "CLIENT_ID") (w.env "SPOTIFY_CLIENT_ID")) &&
       strTruthy (pyOr (w.env "CLIENT_SECRET") (w.env "SPOTIFY_CLIENT_SECRET"))) := by
    rw [strTruthy_pyOr, strTruthy_pyOr]; rfl
  rw [he]
  cases h1 : strTruthy (pyOr (w.env "CLIENT_ID") (w.env "SPOTIFY_CLIENT_ID")) <;>
    cases h2 : strTruthy (pyOr (w.env "CLIENT_SECRET") (w.env "SPOTIFY_CLIENT_SECRET")) <;>
      simp [envBody, afterLines, emit, setResult, h1, h2]

/-- Body of `test_authentication` (after its `print_header`): constructs the
auth manager and the client inside `try`, stores the handle in `self.sp`
and records success; any construction error is caught and reported. -/
def authBody (w : World) : M (Option Bool) :=
  pyTry (do
    let client_id := pyOr (w.env "CLIENT_ID") (w.env "SPOTIFY_CLIENT_ID")
    let client_secret := pyOr (w.env "CLIENT_SECRET") (w.env "SPOTIFY_CLIENT_SECRET")
    recordCall .clientCredentials
    let auth_manager ← liftExc (w.mkAuth client_id client_secret)
    recordCall .spotifyClient
    let cl ← liftExc (w.mkClient auth_manager 10 (some 1))
    setSp (some cl)
    emit "✅ Authentication successful!"
    setResult "authentication" true
    pure (some true))
  (fun e => do
    emit ("❌ Authentication failed: " ++ e)
    pure (some false))

/-- The combined construction the authentication check attempts:
`SpotifyClientCredentials` followed by `spotipy.Spotify`. -/
def authConstruct (w : World) : Except String Client :=
  match w.mkAuth (pyOr (w.env "CLIENT_ID") (w.env "SPOTIFY_CLIENT_ID"))
        (pyOr (w.env "CLIENT_SECRET") (w.env "SPOTIFY_CLIENT_SECRET")) with
  | .error e => .error e
  | .ok a => w.mkClient a 10 (some 1)

/-- Whether the construction succeeds. -/
def authOk (w : World) : Bool :=
  match authConstruct w with
  | .ok _ => true
  | .error _ => false

/-- Full characterisation of the authentication-check body: it returns the
boolean `authOk`, assigns `sp` only when construction succeeded (keeping its
pre-call value otherwise), and sets the `authentication` entry exactly on
success. -/
theorem authBody_char (w : World) (c : Core) :
    authBody w c = Res.ok (some (authOk w))
      ⟨if authOk w then pySetItem c.results "authentication" true else c.results,
       (match authConstruct w with | .ok cl => some cl | .error _ => c.sp),
       afterCalls (authBody w) c, afterLines (authBody w) c⟩ := by
  obtain ⟨res, sp, calls, lines⟩ := c
  cases ha : w.mkAuth (pyOr (w.env "CLIENT_ID") (w.env "SPOTIFY_CLIENT_ID"))
      (pyOr (w.env "CLIENT_SECRET") (w.env "SPOTIFY_CLIENT_SECRET")) with
  | error e =>
    simp [authBody, authOk, authConstruct, pyTry, liftExc, recordCall, emit, setSp,
      setResult, afterCalls, afterLines, ha]
  | ok a =>
    cases hc : w.mkClient a 10 (some 1) with
    | error e =>
      simp [authBody, authOk, authConstruct, pyTry, liftExc, recordCall, emit, setSp,
        setResult, afterCalls, afterLines, ha, hc]
    | ok cl =>
      simp [authBody, authOk, authConstruct, pyTry, liftExc, recordCall, emit, setSp,
        setResult, afterCalls, afterLines, ha, hc]

/-- Body of `test_api_connection` (after its `print_header`). -/
def apiBody : M (Option Bool) :=
  pyTry (do
    let results ← callSearch "artist:Ed Sheeran" "track" 1
    let cond ← pyAnd results (pyIn "tracks" results)
    if cond then do
      let tracksObj ← getItemS results "tracks"
      let items ← getItemS tracksObj "items"
      let track ← getIdx items 0
      emit "✅ API connection successful!"
      let nm ← getItemS track "name"
      emit ("   Test track: " ++ pyStr nm)
      let artists ← getItemS track "artists"
      let a0 ← getIdx artists 0
      let an ← getItemS a0 "name"
      emit ("   Artist: " ++ pyStr an)
      let dur ← getItemS track "duration_ms"
      emit ("   Duration: " ++ pyStr dur ++ "ms")
      setResult "api_connection" true
      pure (some true)
    else do
      emit "❌ No results returned from API"
      pure (some false))
  (fun e => do
    emit ("❌ API connection test failed: " ++ e)
    pure (some false))

/-- Whether the first search item and the fields printed from it are all
accessible (track name, first artist name, duration). -/
def apiTrackOk (r : JSON) : Bool :=
  match jGet r "tracks" with
  | none => false
  | some tr =>
    match jGet tr "items" with
    | none => false
    | some its =>
      match jIdx its 0 with
      | none => false
      | some track =>
        (jGet track "name").isSome &&
        (match jGet track "artists" with
         | none => false
         | some arts =>
           match jIdx arts 0 with
           | none => false
           | some a0 => (jGet a0 "name").isSome) &&
        (jGet track "duration_ms").isSome

/-- Success condition of the API-connection check, as a pure function of the
client handle. -/
def apiSuccess (sp : Option Client) : Bool :=
  match sp with
  | none => false
  | some cl =>
    match cl.search "artist:Ed Sheeran" "track" 1 with
    | .error _ => false
    | .ok r =>
      truthy r &&
      (match pyInPure "tracks" r with
       | some true => apiTrackOk r
       | _ => false)

/-- The remote calls the API-connection check performs: exactly one search
when a handle exists, none when `sp` is `None`. -/
def apiCallsOf (sp : Option Client) : List CallEv :=
  match sp with
  | none => []
  | some _ => [CallEv.search "artist:Ed Sheeran" "track" 1]

/-- Full characterisation of the API-connection body. -/
theorem apiBody_char (c : Core) :
    apiBody c = Res.ok (some (apiSuccess c.sp))
      ⟨if apiSuccess c.sp then pySetItem c.results "api_connection" true else c.results,
       c.sp, c.calls ++ apiCallsOf c.sp, afterLines apiBody c⟩ := by
  obtain ⟨res, sp, calls, lines⟩ := c
  cases sp with
  | none =>
    simp [apiBody, apiSuccess, apiCallsOf, callSearch, getSp, recordCall, liftExc,
      pyTry, pyAnd, pyIn, getItemS, getIdx, emit, setResult, afterLines]
  | some cl =>
    cases hs : cl.search "artist:Ed Sheeran" "track" 1 with
    | error e =>
      simp [apiBody, apiSuccess, apiCallsOf, callSearch, getSp, recordCall, liftExc,
        pyTry, pyAnd, pyIn, getItemS, getIdx, emit, setResult, afterLines, hs]
    | ok r =>
      by_cases htr : truthy r
      · cases hin : pyInPure "tracks" r with
        | none =>
          simp [apiBody, apiSuccess, apiCallsOf, callSearch, getSp, recordCall, liftExc,
            pyTry, pyAnd, pyIn, getItemS, getIdx, emit, setResult, afterLines, hs, htr, hin]
        | some b =>
          cases b with
          | false =>
            simp [apiBody, apiSuccess, apiCallsOf, callSearch, getSp, recordCall, liftExc,
              pyTry, pyAnd, pyIn, getItemS, getIdx, emit, setResult, afterLines, hs, htr, hin]
          | true =>
            cases h1 : jGet r "tracks" with
            | none =>
              simp [apiBody, apiSuccess, apiTrackOk, apiCallsOf, callSearch, getSp,
                recordCall, liftExc, pyTry, pyAnd, pyIn, getItemS, getIdx, emit,
                setResult, afterLines, hs, htr, hin, h1]
            | some tr =>
              cases h2 : jGet tr "items" with
              | none =>
                simp [apiBody, apiSuccess, apiTrackOk, apiCallsOf, callSearch, getSp,
                  recordCall, liftExc, pyTry, pyAnd, pyIn, getItemS, getIdx, emit,
                  setResult, afterLines, hs, htr, hin, h1, h2]
              | some its =>
                cases h3 : jIdx its 0 with
                | none =>
                  simp [apiBody, apiSuccess, apiTrackOk, apiCallsOf, callSearch, getSp,
                    recordCall, liftExc, pyTry, pyAnd, pyIn, getItemS, getIdx, emit,
                    setResult, afterLines, hs, htr, hin, h1, h2, h3]
                | some track =>
                  cases h4 : jGet track "name" with
                  | none =>
                    simp [apiBody, apiSuccess, apiTrackOk, apiCallsOf, callSearch, getSp,
                      recordCall, liftExc, pyTry, pyAnd, pyIn, getItemS, getIdx, emit,
                      setResult, afterLines, hs, htr, hin, h1, h2, h3, h4]
                  | some nm =>
                    cases h5 : jGet track "artists" with
                    | none =>
                      simp [apiBody, apiSuccess, apiTrackOk, apiCallsOf, callSearch, getSp,
                        recordCall, liftExc, pyTry, pyAnd, pyIn, getItemS, getIdx, emit,
                        setResult, afterLines, hs, htr, hin, h1, h2, h3, h4, h5]
                    | some arts =>
                      cases h6 : jIdx arts 0 with
                      | none =>
                        simp [apiBody, apiSuccess, apiTrackOk, apiCallsOf, callSearch, getSp,
                          recordCall, liftExc, pyTry, pyAnd, pyIn, getItemS, getIdx, emit,
                          setResult, afterLines, hs, htr, hin, h1, h2, h3, h4, h5, h6]
                      | some a0 =>
                        cases h7 : jGet a0 "name" with
                        | none =>
                          simp [apiBody, apiSuccess, apiTrackOk, apiCallsOf, callSearch, getSp,
                            recordCall, liftExc, pyTry, pyAnd, pyIn, getItemS, getIdx, emit,
                            setResult, afterLines, hs, htr, hin, h1, h2, h3, h4, h5, h6, h7]
                        | some an =>
                          cases h8 : jGet track "duration_ms" with
                          | none =>
                            simp [apiBody, apiSuccess, apiTrackOk, apiCallsOf, callSearch,
                              getSp, recordCall, liftExc, pyTry, pyAnd, pyIn, getItemS,
                              getIdx, emit, setResult, afterLines, hs, htr, hin, h1, h2,
                              h3, h4, h5, h6, h7, h8]
                          | some dur =>
                            simp [apiBody, apiSuccess, apiTrackOk, apiCallsOf, callSearch,
                              getSp, recordCall, liftExc, pyTry, pyAnd, pyIn, getItemS,
                              getIdx, emit, setResult, afterLines, hs, htr, hin, h1, h2,
                              h3, h4, h5, h6, h7, h8]
      · simp [apiBody, apiSuccess, apiCallsOf, callSearch, getSp, recordCall, liftExc,
          pyTry, pyAnd, pyIn, getItemS, getIdx, emit, setResult, afterLines, hs, htr]

/-- The loop of `test_playlist_access` over the first three fetched
playlist tracks (enumerate over the sliced item list). -/
def printTracksLoop : List JSON → Nat → M Unit
  | [], _ => pure ()
  | item :: rest, i => do
    let track ← getItemS item "track"
    let nm ← getItemS track "name"
    let arts ← getItemS track "artists"
    let a0 ← getIdx arts 0
    let an ← getItemS a0 "name"
    emit ("     " ++ toString (i + 1) ++ ". " ++ pyStr nm ++ " - " ++ pyStr an)
    printTracksLoop rest (i + 1)

/-- Whether one sample-track row can be printed without an exception. -/
def trackRowOk (item : JSON) : Bool :=
  match jGet item "track" with
  | none => false
  | some track =>
    (jGet track "name").isSome &&
    (match jGet track "artists" with
     | none => false
     | some arts =>
       match jIdx arts 0 with
       | none => false
       | some a0 => (jGet a0 "name").isSome)

/-- The sample-track loop completes normally iff every row is printable, and
in either case it only appends console lines. -/
theorem printTracksLoop_char (l : List JSON) (i : Nat) (c : Core) :
    if l.all trackRowOk then
      ∃ d, printTracksLoop l i c = Res.ok () d ∧
        d.results = c.results ∧ d.sp = c.sp ∧ d.calls = c.calls
    else
      ∃ e d, printTracksLoop l i c = Res.err e d ∧
        d.results = c.results ∧ d.sp = c.sp ∧ d.calls = c.calls := by
  induction l generalizing i c with
  | nil => simp [printTracksLoop]
  | cons item rest ih =>
    cases h1 : jGet item "track" with
    | none =>
      simp [printTracksLoop, trackRowOk, h1]
      exact ⟨_, c, ⟨rfl, rfl⟩, rfl, rfl, rfl⟩
    | some track =>
      cases h2 : jGet track "name" with
      | none =>
      simp [printTracksLoop, trackRowOk, h1, h2]
      exact ⟨_, c, ⟨rfl, rfl⟩, rfl, rfl, rfl⟩
      | some nm =>
        cases h3 : jGet track "artists" with
        | none =>
      simp [printTracksLoop, trackRowOk, h1, h2, h3]
      exact ⟨_, c, ⟨rfl, rfl⟩, rfl, rfl, rfl⟩
        | some arts =>
          cases h4 : jIdx arts 0 with
          | none =>
      simp [printTracksLoop, trackRowOk, h1, h2, h3, h4]
      exact ⟨_, c, ⟨rfl, rfl⟩, rfl, rfl, rfl⟩
          | some a0 =>
            cases h5 : jGet a0 "name" with
            | none =>
      simp [printTracksLoop, trackRowOk, h1, h2, h3, h4, h5]
      exact ⟨_, c, ⟨rfl, rfl⟩, rfl, rfl, rfl⟩
            | some an =>
              have hrow : trackRowOk item = true := by
                simp [trackRowOk, h1, h2, h3, h4, h5]
              have hstep : printTracksLoop (item :: rest) i c =
                  printTracksLoop rest (i + 1)
                    { c with lines := c.lines ++
                      ["     " ++ toString (i + 1) ++ ". " ++ pyStr nm ++ " - " ++ pyStr an] } := by
                simp [printTracksLoop, h1, h2, h3, h4, h5]
              by_cases hall : rest.all trackRowOk
              · have := ih (i + 1)
                  { c with lines := c.lines ++
                    ["     " ++ toString (i + 1) ++ ". " ++ pyStr nm ++ " - " ++ pyStr an] }
                rw [if_pos hall] at this
                obtain ⟨d, hd, hr, hsp, hc⟩ := this
                simp only [List.all_cons, hrow, hall, Bool.true_and, if_true]
                exact ⟨d, by rw [hstep]; exact hd, hr, hsp, hc⟩
              · have := ih (i + 1)
                  { c with lines := c.lines ++
                    ["     " ++ toString (i + 1) ++ ". " ++ pyStr nm ++ " - " ++ pyStr an] }
                rw [if_neg (by simp [hall])] at this
                obtain ⟨e, d, hd, hr, hsp, hc⟩ := this
                have hco : (item :: rest).all trackRowOk = false := by
                  simp [List.all_cons, hrow]
                  simpa using hall
                rw [hco, if_neg (by simp)]
                exact ⟨e, d, by rw [hstep]; exact hd, hr, hsp, hc⟩

/-- Body of `test_playlist_access` (after its `print_header`).  Note the
missing `else`: when the fetched playlist is falsy the body falls off the
end of the `try` block, returning Python `None` (`none` here). -/
def playlistBody : M (Option Bool) :=
  pyTry (do
    let playlist ← callPlaylist "37i9dQZEVXbMDoHDwVN2tF"
    if truthy playlist then do
      emit "✅ Playlist access successful!"
      let nm ← getItemS playlist "name"
      emit ("   Playlist: " ++ pyStr nm)
      let desc ← dictGet playlist "description" (.str "No description")
      emit ("   Description: " ++ pyStr desc)
      let fol ← getItemS playlist "followers"
      let foltot ← getItemS fol "total"
      let fs ← fmtComma foltot
      emit ("   Followers: " ++ fs)
      let trs ← getItemS playlist "tracks"
      let trtot ← getItemS trs "total"
      emit ("   Tracks: " ++ pyStr trtot)
      let pub ← getItemS playlist "public"
      emit ("   Public: " ++ pyStr pub)
      let tracks ← callPlaylistTracks "37i9dQZEVXbMDoHDwVN2tF" 3
      let cond2 ← pyAnd tracks (pyIn "items" tracks)
      if cond2 then do
        emit "   Sample tracks:"
        let items ← getItemS tracks "items"
        let sl ← pySlice3 items
        let elems ← pyIterate sl
        printTracksLoop elems 0
      setResult "playlist_access" true
      pure (some true)
    else
      pure none)
  (fun e => do
    emit ("❌ Playlist access test failed: " ++ e)
    pure (some false))

/-- Whether all playlist metadata fields printed by the check are accessible
(name, description via `.get`, followers total with `:,` formatting, tracks
total, public flag). -/
def playlistMetaOk (p : JSON) : Bool :=
  (jGet p "name").isSome &&
  (dictGetPure p "description" (.str "No description")).isSome &&
  (match jGet p "followers" with
   | none => false
   | some fol =>
     match jGet fol "total" with
     | none => false
     | some tot => fmtCommaOk tot) &&
  (match jGet p "tracks" with
   | none => false
   | some trs => (jGet trs "total").isSome) &&
  (jGet p "public").isSome

/-- Whether the nested sample-track section completes without an exception
(a falsy tracks object or an absent `items` key is skipped, not an error). -/
def tracksSectionOk (t : JSON) : Bool :=
  if truthy t then
    match pyInPure "items" t with
    | none => false
    | some false => true
    | some true =>
      match jGet t "items" with
      | none => false
      | some items =>
        match slicePure items with
        | none => false
        | some sl =>
          match iterPure sl with
          | none => false
          | some elems => elems.all trackRowOk
  else true

/-- The value `test_playlist_access` returns, as a pure function of the
client handle: `none` models the implicit Python `None` on a falsy playlist
object. -/
def playlistValue (sp : Option Client) : Option Bool :=
  match sp with
  | none => some false
  | some cl =>
    match cl.playlist "37i9dQZEVXbMDoHDwVN2tF" with
    | .error _ => some false
    | .ok p =>
      if truthy p then
        if playlistMetaOk p then
          match cl.playlist_tracks "37i9dQZEVXbMDoHDwVN2tF" 3 with
          | .error _ => some false
          | .ok t => if tracksSectionOk t then some true else some false
        else some false
      else none

/-- Full characterisation of the playlist-access body. -/
theorem playlistBody_char (c : Core) :
    playlistBody c = Res.ok (playlistValue c.sp)
      ⟨(if playlistValue c.sp = some true
          then pySetItem c.results "playlist_access" true else c.results),
       c.sp, afterCalls playlistBody c, afterLines playlistBody c⟩ := by
  obtain ⟨res, sp, calls, lines⟩ := c
  cases sp with
  | none => simp [playlistBody, playlistValue, afterCalls, afterLines]
  | some cl =>
    cases hp : cl.playlist "37i9dQZEVXbMDoHDwVN2tF" with
    | error e => simp [playlistBody, playlistValue, afterCalls, afterLines, hp]
    | ok p =>
      by_cases htp : truthy p
      case neg =>
        simp [playlistBody, playlistValue, afterCalls, afterLines, hp, htp]
      case pos =>
      cases h1 : jGet p "name" with
      | none =>
        simp [playlistBody, playlistValue, playlistMetaOk, fmtCommaOk, afterCalls, afterLines,
          hp, htp, h1]
      | some nm =>
      cases hd : dictGetPure p "description" (.str "No description") with
      | none =>
        simp [playlistBody, playlistValue, playlistMetaOk, fmtCommaOk, afterCalls, afterLines,
          hp, htp, h1, hd]
      | some desc =>
      cases h2 : jGet p "followers" with
      | none =>
        simp [playlistBody, playlistValue, playlistMetaOk, fmtCommaOk, afterCalls, afterLines,
          hp, htp, h1, hd, h2]
      | some fol =>
      cases h3 : jGet fol "total" with
      | none =>
        simp [playlistBody, playlistValue, playlistMetaOk, fmtCommaOk, afterCalls, afterLines,
          hp, htp, h1, hd, h2, h3]
      | some foltot =>
      cases h4 : fmtCommaPure foltot with
      | none =>
        simp [playlistBody, playlistValue, playlistMetaOk, fmtCommaOk, afterCalls, afterLines,
          hp, htp, h1, hd, h2, h3, h4]
      | some fs =>
      cases h5 : jGet p "tracks" with
      | none =>
        simp [playlistBody, playlistValue, playlistMetaOk, fmtCommaOk, afterCalls, afterLines,
          hp, htp, h1, hd, h2, h3, h4, h5]
      | some trs =>
      cases h6 : jGet trs "total" with
      | none =>
        simp [playlistBody, playlistValue, playlistMetaOk, fmtCommaOk, afterCalls, afterLines,
          hp, htp, h1, hd, h2, h3, h4, h5, h6]
      | some trtot =>
      cases h7 : jGet p "public" with
      | none =>
        simp [playlistBody, playlistValue, playlistMetaOk, fmtCommaOk, afterCalls, afterLines,
          hp, htp, h1, hd, h2, h3, h4, h5, h6, h7]
      | some pub =>
      cases hpt : cl.playlist_tracks "37i9dQZEVXbMDoHDwVN2tF" 3 with
      | error e =>
        simp [playlistBody, playlistValue, playlistMetaOk, fmtCommaOk, afterCalls, afterLines,
          hp, htp, h1, hd, h2, h3, h4, h5, h6, h7, hpt]
      | ok t =>
      by_cases htt : truthy t
      case neg =>
        simp [playlistBody, playlistValue, playlistMetaOk, fmtCommaOk, tracksSectionOk,
          afterCalls, afterLines, hp, htp, h1, hd, h2, h3, h4, h5, h6, h7, hpt, htt]
      case pos =>
      cases hin : pyInPure "items" t with
      | none =>
        simp [playlistBody, playlistValue, playlistMetaOk, fmtCommaOk, tracksSectionOk,
          afterCalls, afterLines, hp, htp, h1, hd, h2, h3, h4, h5, h6, h7, hpt, htt, hin]
      | some b =>
      cases b with
      | false =>
        simp [playlistBody, playlistValue, playlistMetaOk, fmtCommaOk, tracksSectionOk,
          afterCalls, afterLines, hp, htp, h1, hd, h2, h3, h4, h5, h6, h7, hpt, htt, hin]
      | true =>
      cases h8 : jGet t "items" with
      | none =>
        simp [playlistBody, playlistValue, playlistMetaOk, fmtCommaOk, tracksSectionOk,
          afterCalls, afterLines, hp, htp, h1, hd, h2, h3, h4, h5, h6, h7, hpt, htt,
          hin, h8]
      | some items =>
      cases h9 : slicePure items with
      | none =>
        simp [playlistBody, playlistValue, playlistMetaOk, fmtCommaOk, tracksSectionOk,
          afterCalls, afterLines, hp, htp, h1, hd, h2, h3, h4, h5, h6, h7, hpt, htt,
          hin, h8, h9]
      | some sl =>
      cases h10 : iterPure sl with
      | none =>
        simp [playlistBody, playlistValue, playlistMetaOk, fmtCommaOk, tracksSectionOk,
          afterCalls, afterLines, hp, htp, h1, hd, h2, h3, h4, h5, h6, h7, hpt, htt,
          hin, h8, h9, h10]
      | some elems =>
      by_cases hall : elems.all trackRowOk
      · have hloop := printTracksLoop_char elems 0
          ⟨res, some cl, calls ++ [CallEv.playlistCall "37i9dQZEVXbMDoHDwVN2tF",
            CallEv.playlistTracksCall "37i9dQZEVXbMDoHDwVN2tF" 3],
           lines ++ ["✅ Playlist access successful!", "   Playlist: " ++ pyStr nm,
            "   Description: " ++ pyStr desc, "   Followers: " ++ fs,
            "   Tracks: " ++ pyStr trtot, "   Public: " ++ pyStr pub,
            "   Sample tracks:"]⟩
        rw [if_pos hall] at hloop
        obtain ⟨d, hds, hdr, hdsp, hdc⟩ := hloop
        simp [playlistBody, playlistValue, playlistMetaOk, fmtCommaOk, tracksSectionOk,
          afterCalls, afterLines, hp, htp, h1, hd, h2, h3, h4, h5, h6, h7, hpt, htt,
          hin, h8, h9, h10, hall, hds, hdr, hdsp, hdc]
      · have hloop := printTracksLoop_char elems 0
          ⟨res, some cl, calls ++ [CallEv.playlistCall "37i9dQZEVXbMDoHDwVN2tF",
            CallEv.playlistTracksCall "37i9dQZEVXbMDoHDwVN2tF" 3],
           lines ++ ["✅ Playlist access successful!", "   Playlist: " ++ pyStr nm,
            "   Description: " ++ pyStr desc, "   Followers: " ++ fs,
            "   Tracks: " ++ pyStr trtot, "   Public: " ++ pyStr pub,
            "   Sample tracks:"]⟩
        rw [if_neg hall] at hloop
        obtain ⟨e, d, hds, hdr, hdsp, hdc⟩ := hloop
        simp [playlistBody, playlistValue, playlistMetaOk, fmtCommaOk, tracksSectionOk,
          afterCalls, afterLines, hp, htp, h1, hd, h2, h3, h4, h5, h6, h7, hpt, htt,
          hin, h8, h9, h10, hall, hds, hdr, hdsp, hdc]

/-- An apostrophe, kept out of string literals. -/
def apos : String := String.singleton (Char.ofNat 39)

/-- The four fixed search queries of `test_search_functionality`. -/
def searchQueries : List (String × String) :=
  [("Dua Lipa", "artist"), ("Blinding Lights", "track"),
   ("Today" ++ apos ++ "s Top Hits", "playlist"), ("Future Nostalgia", "album")]

/-- One iteration of the `test_search_functionality` loop. -/
def searchQueryStep (q ty : String) : M Unit := do
  let results ← callSearch q ty 1
  let cond ← pyAnd results (pyIn (ty ++ "s") results)
  if cond then do
    let typed ← getItemS results (ty ++ "s")
    let items ← getItemS typed "items"
    if truthy items then do
      let item ← getIdx items 0
      if ty = "artist" then do
        let nm ← getItemS item "name"
        let fol ← getItemS item "followers"
        let tot ← getItemS fol "total"
        let ts ← fmtComma tot
        emit ("   Artist: " ++ pyStr nm ++ " - " ++ ts ++ " followers")
      else if ty = "track" then do
        let nm ← getItemS item "name"
        let arts ← getItemS item "artists"
        let a0 ← getIdx arts 0
        let an ← getItemS a0 "name"
        emit ("   Track: " ++ pyStr nm ++ " - " ++ pyStr an)
      else if ty = "playlist" then do
        let nm ← getItemS item "name"
        let ow ← getItemS item "owner"
        let dn ← getItemS ow "display_name"
        emit ("   Playlist: " ++ pyStr nm ++ " - " ++ pyStr dn)
      else if ty = "album" then do
        let nm ← getItemS item "name"
        let arts ← getItemS item "artists"
        let a0 ← getIdx arts 0
        let an ← getItemS a0 "name"
        emit ("   Album: " ++ pyStr nm ++ " - " ++ pyStr an)
      else pure ()
    else pure ()
  else pure ()

/-- The `for query in search_queries` loop. -/
def searchLoop : List (String × String) → M Unit
  | [] => pure ()
  | (q, ty) :: rest => do
    searchQueryStep q ty
    searchLoop rest

/-- Body of `test_search_functionality` (after its `print_header`). -/
def searchBody : M (Option Bool) :=
  pyTry (do
    searchLoop searchQueries
    emit "✅ Search functionality working!"
    setResult "search_functionality" true
    pure (some true))
  (fun e => do
    emit ("❌ Search functionality test failed: " ++ e)
    pure (some false))

/-- Whether the name of the first artist of an item is accessible
(item, then artists, then index 0, then name). -/
def artistZeroNameOk (item : JSON) : Bool :=
  match jGet item "artists" with
  | none => false
  | some arts =>
    match jIdx arts 0 with
    | none => false
    | some a0 => (jGet a0 "name").isSome

/-- Whether the per-type print of the first item succeeds. -/
def printItemOk (ty : String) (item : JSON) : Bool :=
  if ty = "artist" then
    (jGet item "name").isSome &&
    (match jGet item "followers" with
     | none => false
     | some fol =>
       match jGet fol "total" with
       | none => false
       | some tot => fmtCommaOk tot)
  else if ty = "track" then
    (jGet item "name").isSome && artistZeroNameOk item
  else if ty = "playlist" then
    (jGet item "name").isSome &&
    (match jGet item "owner" with
     | none => false
     | some ow => (jGet ow "display_name").isSome)
  else if ty = "album" then
    (jGet item "name").isSome && artistZeroNameOk item
  else true

/-- Whether one query of the search loop completes without an exception
(an empty or absent item list is silently skipped and counts as success). -/
def queryOk (cl : Client) (q ty : String) : Bool :=
  match cl.search q ty 1 with
  | .error _ => false
  | .ok r =>
    if truthy r then
      match pyInPure (ty ++ "s") r with
      | none => false
      | some false => true
      | some true =>
        match jGet r (ty ++ "s") with
        | none => false
        | some typed =>
          match jGet typed "items" with
          | none => false
          | some items =>
            if truthy items then
              match jIdx items 0 with
              | none => false
              | some item => printItemOk ty item
            else true
    else true

/-- Success condition of the search-functionality check: a handle exists and
every one of the four fixed queries completes without an exception. -/
def searchOk (sp : Option Client) : Bool :=
  match sp with
  | none => false
  | some cl => searchQueries.all (fun p => queryOk cl p.1 p.2)

/-- One search-loop iteration completes normally iff `queryOk`, and it only
appends console lines and a call-trace entry. -/
theorem searchQueryStep_char (cl : Client) (q ty : String) (c : Core)
    (hsp : c.sp = some cl) :
    if queryOk cl q ty then
      ∃ d, searchQueryStep q ty c = Res.ok () d ∧ d.results = c.results ∧ d.sp = c.sp
    else
      ∃ e d, searchQueryStep q ty c = Res.err e d ∧ d.results = c.results ∧ d.sp = c.sp := by
  obtain ⟨res, sp, calls, lines⟩ := c
  cases hsp
  cases hs : cl.search q ty 1 with
  | error e => simp [searchQueryStep, queryOk, hs] <;> (first | exact ⟨_, _, ⟨rfl, rfl⟩, rfl, rfl⟩ | exact ⟨_, ⟨rfl, rfl⟩, rfl, rfl⟩)
  | ok r =>
    by_cases htr : truthy r
    case neg => simp [searchQueryStep, queryOk, hs, htr] <;> (first | exact ⟨_, _, ⟨rfl, rfl⟩, rfl, rfl⟩ | exact ⟨_, ⟨rfl, rfl⟩, rfl, rfl⟩)
    case pos =>
    cases hin : pyInPure (ty ++ "s") r with
    | none => simp [searchQueryStep, queryOk, hs, htr, hin] <;> (first | exact ⟨_, _, ⟨rfl, rfl⟩, rfl, rfl⟩ | exact ⟨_, ⟨rfl, rfl⟩, rfl, rfl⟩)
    | some b =>
    cases b with
    | false => simp [searchQueryStep, queryOk, hs, htr, hin] <;> (first | exact ⟨_, _, ⟨rfl, rfl⟩, rfl, rfl⟩ | exact ⟨_, ⟨rfl, rfl⟩, rfl, rfl⟩)
    | true =>
    cases hg1 : jGet r (ty ++ "s") with
    | none => simp [searchQueryStep, queryOk, hs, htr, hin, hg1] <;> (first | exact ⟨_, _, ⟨rfl, rfl⟩, rfl, rfl⟩ | exact ⟨_, ⟨rfl, rfl⟩, rfl, rfl⟩)
    | some typed =>
    cases hg2 : jGet typed "items" with
    | none => simp [searchQueryStep, queryOk, hs, htr, hin, hg1, hg2] <;> (first | exact ⟨_, _, ⟨rfl, rfl⟩, rfl, rfl⟩ | exact ⟨_, ⟨rfl, rfl⟩, rfl, rfl⟩)
    | some items =>
    by_cases hti : truthy items
    case neg => simp [searchQueryStep, queryOk, hs, htr, hin, hg1, hg2, hti] <;> (first | exact ⟨_, _, ⟨rfl, rfl⟩, rfl, rfl⟩ | exact ⟨_, ⟨rfl, rfl⟩, rfl, rfl⟩)
    case pos =>
    cases hidx : jIdx items 0 with
    | none => simp [searchQueryStep, queryOk, hs, htr, hin, hg1, hg2, hti, hidx] <;> (first | exact ⟨_, _, ⟨rfl, rfl⟩, rfl, rfl⟩ | exact ⟨_, ⟨rfl, rfl⟩, rfl, rfl⟩)
    | some item =>
    by_cases ha : ty = "artist"
    · subst ha
      simp at hin hg1
      cases k1 : jGet item "name" with
      | none => simp [searchQueryStep, queryOk, printItemOk, hs, htr, hin, hg1, hg2, hti, hidx, k1] <;> (first | exact ⟨_, _, ⟨rfl, rfl⟩, rfl, rfl⟩ | exact ⟨_, ⟨rfl, rfl⟩, rfl, rfl⟩)
      | some nm =>
      cases k2 : jGet item "followers" with
      | none => simp [searchQueryStep, queryOk, printItemOk, hs, htr, hin, hg1, hg2, hti, hidx, k1, k2] <;> (first | exact ⟨_, _, ⟨rfl, rfl⟩, rfl, rfl⟩ | exact ⟨_, ⟨rfl, rfl⟩, rfl, rfl⟩)
      | some fol =>
      cases k3 : jGet fol "total" with
      | none => simp [searchQueryStep, queryOk, printItemOk, hs, htr, hin, hg1, hg2, hti, hidx, k1, k2, k3] <;> (first | exact ⟨_, _, ⟨rfl, rfl⟩, rfl, rfl⟩ | exact ⟨_, ⟨rfl, rfl⟩, rfl, rfl⟩)
      | some tot =>
      cases k4 : fmtCommaPure tot with
      | none => simp [searchQueryStep, queryOk, printItemOk, fmtCommaOk, hs, htr, hin, hg1, hg2, hti, hidx, k1, k2, k3, k4] <;> (first | exact ⟨_, _, ⟨rfl, rfl⟩, rfl, rfl⟩ | exact ⟨_, ⟨rfl, rfl⟩, rfl, rfl⟩)
      | some ts => simp [searchQueryStep, queryOk, printItemOk, fmtCommaOk, hs, htr, hin, hg1, hg2, hti, hidx, k1, k2, k3, k4] <;> (first | exact ⟨_, _, ⟨rfl, rfl⟩, rfl, rfl⟩ | exact ⟨_, ⟨rfl, rfl⟩, rfl, rfl⟩)
    · by_cases hb : ty = "track"
      · subst hb
        simp at hin hg1
        cases k1 : jGet item "name" with
        | none => simp [searchQueryStep, queryOk, printItemOk, hs, htr, hin, hg1, hg2, hti, hidx, k1] <;> (first | exact ⟨_, _, ⟨rfl, rfl⟩, rfl, rfl⟩ | exact ⟨_, ⟨rfl, rfl⟩, rfl, rfl⟩)
        | some nm =>
        cases k2 : jGet item "artists" with
        | none => simp [searchQueryStep, queryOk, printItemOk, artistZeroNameOk, hs, htr, hin, hg1, hg2, hti, hidx, k1, k2] <;> (first | exact ⟨_, _, ⟨rfl, rfl⟩, rfl, rfl⟩ | exact ⟨_, ⟨rfl, rfl⟩, rfl, rfl⟩)
        | some arts =>
        cases k3 : jIdx arts 0 with
        | none => simp [searchQueryStep, queryOk, printItemOk, artistZeroNameOk, hs, htr, hin, hg1, hg2, hti, hidx, k1, k2, k3] <;> (first | exact ⟨_, _, ⟨rfl, rfl⟩, rfl, rfl⟩ | exact ⟨_, ⟨rfl, rfl⟩, rfl, rfl⟩)
        | some a0 =>
        cases k4 : jGet a0 "name" with
        | none => simp [searchQueryStep, queryOk, printItemOk, artistZeroNameOk, hs, htr, hin, hg1, hg2, hti, hidx, k1, k2, k3, k4] <;> (first | exact ⟨_, _, ⟨rfl, rfl⟩, rfl, rfl⟩ | exact ⟨_, ⟨rfl, rfl⟩, rfl, rfl⟩)
        | some an => simp [searchQueryStep, queryOk, printItemOk, artistZeroNameOk, hs, htr, hin, hg1, hg2, hti, hidx, k1, k2, k3, k4] <;> (first | exact ⟨_, _, ⟨rfl, rfl⟩, rfl, rfl⟩ | exact ⟨_, ⟨rfl, rfl⟩, rfl, rfl⟩)
      · by_cases hc : ty = "playlist"
        · subst hc
          simp at hin hg1
          cases k1 : jGet item "name" with
          | none => simp [searchQueryStep, queryOk, printItemOk, hs, htr, hin, hg1, hg2, hti, hidx, k1] <;> (first | exact ⟨_, _, ⟨rfl, rfl⟩, rfl, rfl⟩ | exact ⟨_, ⟨rfl, rfl⟩, rfl, rfl⟩)
          | some nm =>
          cases k2 : jGet item "owner" with
          | none => simp [searchQueryStep, queryOk, printItemOk, hs, htr, hin, hg1, hg2, hti, hidx, k1, k2] <;> (first | exact ⟨_, _, ⟨rfl, rfl⟩, rfl, rfl⟩ | exact ⟨_, ⟨rfl, rfl⟩, rfl, rfl⟩)
          | some ow =>
          cases k3 : jGet ow "display_name" with
          | none => simp [searchQueryStep, queryOk, printItemOk, hs, htr, hin, hg1, hg2, hti, hidx, k1, k2, k3] <;> (first | exact ⟨_, _, ⟨rfl, rfl⟩, rfl, rfl⟩ | exact ⟨_, ⟨rfl, rfl⟩, rfl, rfl⟩)
          | some dn => simp [searchQueryStep, queryOk, printItemOk, hs, htr, hin, hg1, hg2, hti, hidx, k1, k2, k3] <;> (first | exact ⟨_, _, ⟨rfl, rfl⟩, rfl, rfl⟩ | exact ⟨_, ⟨rfl, rfl⟩, rfl, rfl⟩)
        · by_cases hd : ty = "album"
          · subst hd
            simp at hin hg1
            cases k1 : jGet item "name" with
            | none => simp [searchQueryStep, queryOk, printItemOk, hs, htr, hin, hg1, hg2, hti, hidx, k1] <;> (first | exact ⟨_, _, ⟨rfl, rfl⟩, rfl, rfl⟩ | exact ⟨_, ⟨rfl, rfl⟩, rfl, rfl⟩)
            | some nm =>
            cases k2 : jGet item "artists" with
            | none => simp [searchQueryStep, queryOk, printItemOk, artistZeroNameOk, hs, htr, hin, hg1, hg2, hti, hidx, k1, k2] <;> (first | exact ⟨_, _, ⟨rfl, rfl⟩, rfl, rfl⟩ | exact ⟨_, ⟨rfl, rfl⟩, rfl, rfl⟩)
            | some arts =>
            cases k3 : jIdx arts 0 with
            | none => simp [searchQueryStep, queryOk, printItemOk, artistZeroNameOk, hs, htr, hin, hg1, hg2, hti, hidx, k1, k2, k3] <;> (first | exact ⟨_, _, ⟨rfl, rfl⟩, rfl, rfl⟩ | exact ⟨_, ⟨rfl, rfl⟩, rfl, rfl⟩)
            | some a0 =>
            cases k4 : jGet a0 "name" with
            | none => simp [searchQueryStep, queryOk, printItemOk, artistZeroNameOk, hs, htr, hin, hg1, hg2, hti, hidx, k1, k2, k3, k4] <;> (first | exact ⟨_, _, ⟨rfl, rfl⟩, rfl, rfl⟩ | exact ⟨_, ⟨rfl, rfl⟩, rfl, rfl⟩)
            | some an => simp [searchQueryStep, queryOk, printItemOk, artistZeroNameOk, hs, htr, hin, hg1, hg2, hti, hidx, k1, k2, k3, k4] <;> (first | exact ⟨_, _, ⟨rfl, rfl⟩, rfl, rfl⟩ | exact ⟨_, ⟨rfl, rfl⟩, rfl, rfl⟩)
          · simp [searchQueryStep, queryOk, printItemOk, hs, htr, hin, hg1, hg2, hti,
              hidx, ha, hb, hc, hd] <;> (first | exact ⟨_, _, ⟨rfl, rfl⟩, rfl, rfl⟩ | exact ⟨_, ⟨rfl, rfl⟩, rfl, rfl⟩)

/-- The search loop completes normally iff every query is exception-free. -/
theorem searchLoop_char (cl : Client) (qs : List (String × String)) (c : Core)
    (hsp : c.sp = some cl) :
    if qs.all (fun p => queryOk cl p.1 p.2) then
      ∃ d, searchLoop qs c = Res.ok () d ∧ d.results = c.results ∧ d.sp = c.sp
    else
      ∃ e d, searchLoop qs c = Res.err e d ∧ d.results = c.results ∧ d.sp = c.sp := by
  induction qs generalizing c with
  | nil => simp [searchLoop]
  | cons p rest ih =>
    obtain ⟨q, ty⟩ := p
    by_cases hq : queryOk cl q ty
    · have hstep := searchQueryStep_char cl q ty c hsp
      rw [if_pos hq] at hstep
      obtain ⟨d, hds, hdr, hdsp⟩ := hstep
      have hdsp' : d.sp = some cl := by rw [hdsp, hsp]
      by_cases hrest : rest.all (fun p => queryOk cl p.1 p.2)
      · have := ih d hdsp'
        rw [if_pos hrest] at this
        obtain ⟨d2, hd2, hr2, hsp2⟩ := this
        rw [if_pos (by simp [List.all_cons, hq, hrest])]
        exact ⟨d2, by simp [searchLoop, hds, hd2], by rw [hr2, hdr], by rw [hsp2, hdsp]⟩
      · have := ih d hdsp'
        rw [if_neg hrest] at this
        obtain ⟨e, d2, hd2, hr2, hsp2⟩ := this
        rw [if_neg (by simp [List.all_cons, hrest])]
        exact ⟨e, d2, by simp [searchLoop, hds, hd2], by rw [hr2, hdr], by rw [hsp2, hdsp]⟩
    · have hstep := searchQueryStep_char cl q ty c hsp
      rw [if_neg hq] at hstep
      obtain ⟨e, d, hds, hdr, hdsp⟩ := hstep
      rw [if_neg (by simp [List.all_cons, hq])]
      exact ⟨e, d, by simp [searchLoop, hds], hdr, hdsp⟩

/-- Full characterisation of the search-functionality body. -/
theorem searchBody_char (c : Core) :
    searchBody c = Res.ok (some (searchOk c.sp))
      ⟨if searchOk c.sp then pySetItem c.results "search_functionality" true else c.results,
       c.sp, afterCalls searchBody c, afterLines searchBody c⟩ := by
  obtain ⟨res, sp, calls, lines⟩ := c
  cases sp with
  | none =>
    simp [searchBody, searchOk, searchQueries, searchLoop, searchQueryStep,
      afterCalls, afterLines]
  | some cl =>
    have hloop := searchLoop_char cl searchQueries ⟨res, some cl, calls, lines⟩ rfl
    by_cases hall : searchQueries.all (fun p => queryOk cl p.1 p.2)
    · rw [if_pos hall] at hloop
      obtain ⟨d, hds, hdr, hdsp⟩ := hloop
      simp [searchBody, searchOk, afterCalls, afterLines, hall, hds, hdr, hdsp]
    · rw [if_neg hall] at hloop
      obtain ⟨e, d, hds, hdr, hdsp⟩ := hloop
      simp [searchBody, searchOk, afterCalls, afterLines, hall, hds, hdr, hdsp]

/-- Python `x == 1` for the mode field (`True == 1` holds in Python). -/
def pyEqOne : JSON → Bool
  | .num n => decide (n = 1)
  | .bool b => b
  | _ => false

/-- Body of `test_audio_features` (after its `print_header`).  Note the two
missing `else` branches: a falsy search result, an empty item list or falsy
features make the body fall off the end of the `try`, returning `None`. -/
def audioBody : M (Option Bool) :=
  pyTry (do
    let results ← callSearch "track:Blinding Lights artist:The Weeknd" "track" 1
    let cond ← pyAnd results (do
      let tr ← getItemS results "tracks"
      let its ← getItemS tr "items"
      pure (truthy its))
    if cond then do
      let tr ← getItemS results "tracks"
      let its ← getItemS tr "items"
      let t0 ← getIdx its 0
      let track_id ← getItemS t0 "id"
      let fl ← callAudioFeatures (.arr [track_id])
      let features ← getIdx fl 0
      if truthy features then do
        emit "✅ Audio features access successful!"
        let d1 ← getItemS features "danceability"
        let s1 ← fmtF2 d1
        emit ("   Danceability: " ++ s1)
        let d2 ← getItemS features "energy"
        let s2 ← fmtF2 d2
        emit ("   Energy: " ++ s2)
        let d3 ← getItemS features "valence"
        let s3 ← fmtF2 d3
        emit ("   Valence: " ++ s3)
        let tempo ← getItemS features "tempo"
        emit ("   Tempo: " ++ pyStr tempo ++ " BPM")
        let key ← getItemS features "key"
        emit ("   Key: " ++ pyStr key)
        let mode ← getItemS features "mode"
        emit ("   Mode: " ++ (if pyEqOne mode then "Major" else "Minor"))
        pure (some true)
      else pure none
    else pure none)
  (fun e => do
    emit ("❌ Audio features test failed: " ++ e)
    pure (some false))

/-- Whether all printed audio-feature fields are accessible and correctly
formattable. -/
def audioFieldsOk (f : JSON) : Bool :=
  (match jGet f "danceability" with | none => false | some v => fmtF2Ok v) &&
  (match jGet f "energy" with | none => false | some v => fmtF2Ok v) &&
  (match jGet f "valence" with | none => false | some v => fmtF2Ok v) &&
  (jGet f "tempo").isSome && (jGet f "key").isSome && (jGet f "mode").isSome

/-- The value `test_audio_features` returns, as a pure function of the client
handle; `none` models the implicit Python `None`. -/
def audioValue (sp : Option Client) : Option Bool :=
  match sp with
  | none => some false
  | some cl =>
    match cl.search "track:Blinding Lights artist:The Weeknd" "track" 1 with
    | .error _ => some false
    | .ok r =>
      if truthy r then
        match jGet r "tracks" with
        | none => some false
        | some tr =>
          match jGet tr "items" with
          | none => some false
          | some its =>
            if truthy its then
              match jIdx its 0 with
              | none => some false
              | some t0 =>
                match jGet t0 "id" with
                | none => some false
                | some tid =>
                  match cl.audio_features (.arr [tid]) with
                  | .error _ => some false
                  | .ok fl =>
                    match jIdx fl 0 with
                    | none => some false
                    | some features =>
                      if truthy features then
                        if audioFieldsOk features then some true else some false
                      else none
            else none
      else none

/-- Full characterisation of the audio-features body: it never touches the
results mapping or the handle, and its value is `audioValue`. -/
theorem audioBody_char (c : Core) :
    audioBody c = Res.ok (audioValue c.sp)
      ⟨c.results, c.sp, afterCalls audioBody c, afterLines audioBody c⟩ := by
  obtain ⟨res, sp, calls, lines⟩ := c
  cases sp with
  | none => simp [audioBody, audioValue, afterCalls, afterLines]
  | some cl =>
  cases hs : cl.search "track:Blinding Lights artist:The Weeknd" "track" 1 with
  | error e => simp [audioBody, audioValue, afterCalls, afterLines, hs]
  | ok r =>
  by_cases htr : truthy r
  case neg => simp [audioBody, audioValue, afterCalls, afterLines, hs, htr]
  case pos =>
  cases h1 : jGet r "tracks" with
  | none => simp [audioBody, audioValue, afterCalls, afterLines, hs, htr, h1]
  | some tr =>
  cases h2 : jGet tr "items" with
  | none => simp [audioBody, audioValue, afterCalls, afterLines, hs, htr, h1, h2]
  | some its =>
  by_cases hti : truthy its
  case neg => simp [audioBody, audioValue, afterCalls, afterLines, hs, htr, h1, h2, hti]
  case pos =>
  cases h3 : jIdx its 0 with
  | none => simp [audioBody, audioValue, afterCalls, afterLines, hs, htr, h1, h2, hti, h3]
  | some t0 =>
  cases h4 : jGet t0 "id" with
  | none => simp [audioBody, audioValue, afterCalls, afterLines, hs, htr, h1, h2, hti, h3, h4]
  | some tid =>
  cases hf : cl.audio_features (.arr [tid]) with
  | error e => simp [audioBody, audioValue, afterCalls, afterLines, hs, htr, h1, h2, hti, h3, h4, hf]
  | ok fl =>
  cases h5 : jIdx fl 0 with
  | none => simp [audioBody, audioValue, afterCalls, afterLines, hs, htr, h1, h2, hti, h3, h4, hf, h5]
  | some features =>
  by_cases htf : truthy features
  case neg => simp [audioBody, audioValue, afterCalls, afterLines, hs, htr, h1, h2, hti, h3, h4, hf, h5, htf]
  case pos =>
  cases k1 : jGet features "danceability" with
  | none => simp [audioBody, audioValue, audioFieldsOk, afterCalls, afterLines, hs, htr, h1, h2, hti, h3, h4, hf, h5, htf, k1]
  | some d1 =>
  cases k1f : fmtF2Pure d1 with
  | none => simp [audioBody, audioValue, audioFieldsOk, fmtF2Ok, afterCalls, afterLines, hs, htr, h1, h2, hti, h3, h4, hf, h5, htf, k1, k1f]
  | some s1 =>
  cases k2 : jGet features "energy" with
  | none => simp [audioBody, audioValue, audioFieldsOk, fmtF2Ok, afterCalls, afterLines, hs, htr, h1, h2, hti, h3, h4, hf, h5, htf, k1, k1f, k2]
  | some d2 =>
  cases k2f : fmtF2Pure d2 with
  | none => simp [audioBody, audioValue, audioFieldsOk, fmtF2Ok, afterCalls, afterLines, hs, htr, h1, h2, hti, h3, h4, hf, h5, htf, k1, k1f, k2, k2f]
  | some s2 =>
  cases k3 : jGet features "valence" with
  | none => simp [audioBody, audioValue, audioFieldsOk, fmtF2Ok, afterCalls, afterLines, hs, htr, h1, h2, hti, h3, h4, hf, h5, htf, k1, k1f, k2, k2f, k3]
  | some d3 =>
  cases k3f : fmtF2Pure d3 with
  | none => simp [audioBody, audioValue, audioFieldsOk, fmtF2Ok, afterCalls, afterLines, hs, htr, h1, h2, hti, h3, h4, hf, h5, htf, k1, k1f, k2, k2f, k3, k3f]
  | some s3 =>
  cases k4 : jGet features "tempo" with
  | none => simp [audioBody, audioValue, audioFieldsOk, fmtF2Ok, afterCalls, afterLines, hs, htr, h1, h2, hti, h3, h4, hf, h5, htf, k1, k1f, k2, k2f, k3, k3f, k4]
  | some tempo =>
  cases k5 : jGet features "key" with
  | none => simp [audioBody, audioValue, audioFieldsOk, fmtF2Ok, afterCalls, afterLines, hs, htr, h1, h2, hti, h3, h4, hf, h5, htf, k1, k1f, k2, k2f, k3, k3f, k4, k5]
  | some key =>
  cases k6 : jGet features "mode" with
  | none => simp [audioBody, audioValue, audioFieldsOk, fmtF2Ok, afterCalls, afterLines, hs, htr, h1, h2, hti, h3, h4, hf, h5, htf, k1, k1f, k2, k2f, k3, k3f, k4, k5, k6]
  | some mode => simp [audioBody, audioValue, audioFieldsOk, fmtF2Ok, afterCalls, afterLines, hs, htr, h1, h2, hti, h3, h4, hf, h5, htf, k1, k1f, k2, k2f, k3, k3f, k4, k5, k6]

/-- One console entry: an ordinary printed line or the headline of a
`print_header` banner. -/
inductive Out where
  | line (s : String)
  | header (s : String)

/-- State of a run at the top level: the tester fields plus the console
stream with banner headlines distinguished. -/
structure St where
  results : List (String × Bool)
  sp : Option Client
  calls : List CallEv
  log : List Out

/-- Outcome of a top-level step. -/
inductive StRes (α : Type) where
  | ok (a : α) (st : St)
  | err (e : String) (st : St)

/-- A top-level step. -/
def EffM (α : Type) : Type := St → StRes α

/-- Fifty equal signs, the banner rule of `print_header`. -/
def eqs50 : String := String.mk (List.replicate 50 (Char.ofNat 61))

/-- `print_header(h)`: rule, headline, rule. -/
def pushHeader (h : String) (st : St) : St :=
  { st with log := st.log ++ [Out.line ("\n" ++ eqs50), Out.header h, Out.line eqs50] }

/-- Run a method body: its prints join the console as ordinary lines. -/
def liftCore {α} (m : M α) : EffM α := fun st =>
  match m ⟨st.results, st.sp, st.calls, []⟩ with
  | .ok a c => .ok a ⟨c.results, c.sp, c.calls, st.log ++ c.lines.map Out.line⟩
  | .err e c => .err e ⟨c.results, c.sp, c.calls, st.log ++ c.lines.map Out.line⟩

/-- A full `test_*` method: `print_header` then the body. -/
def mkCheck (h : String) (body : M (Option Bool)) : EffM (Option Bool) :=
  fun st => liftCore body (pushHeader h st)

def test_environment_variables (w : World) : EffM (Option Bool) :=
  mkCheck "Testing Environment Variables" (envBody w)

def test_authentication (w : World) : EffM (Option Bool) :=
  mkCheck "Testing Authentication" (authBody w)

def test_api_connection : EffM (Option Bool) :=
  mkCheck "Testing API Connection" apiBody

def test_playlist_access : EffM (Option Bool) :=
  mkCheck "Testing Playlist Access" playlistBody

def test_search_functionality : EffM (Option Bool) :=
  mkCheck "Testing Search Functionality" searchBody

def test_audio_features : EffM (Option Bool) :=
  mkCheck "Testing Audio Features" audioBody

/-- One iteration of the `run_all_tests` loop: run the check under
`try`/`except`, printing a crash notice if an exception escapes it. -/
def runnerStep (name : String) (t : EffM (Option Bool)) (st : St) : St :=
  match t st with
  | .ok _ s => s
  | .err e s => { s with log := s.log ++ [Out.line ("❌ Test " ++ name ++ " crashed: " ++ e)] }

/-- `sum(self.results.values())`: the number of `true` entries. -/
def countTrues (l : List (String × Bool)) : Nat := (l.filter (fun p => p.2)).length

def underscoreToSpace (s : String) : String :=
  String.mk (s.data.map (fun ch => if ch = Char.ofNat 95 then Char.ofNat 32 else ch))

def titleWords : Bool → List Char → List Char
  | _, [] => []
  | cap, ch :: rest =>
    if ch = Char.ofNat 32 then ch :: titleWords true rest
    else (if cap then ch.toUpper else ch) :: titleWords false rest

def titleCase (s : String) : String := String.mk (titleWords true s.data)

def padRight (s : String) (n : Nat) : String :=
  s ++ String.mk (List.replicate (n - s.length) (Char.ofNat 32))

/-- One status row of the summary. -/
def rowLine (p : String × Bool) : String :=
  "   " ++ padRight (titleCase (underscoreToSpace p.1)) 20 ++ " " ++
    (if p.2 then "✅ PASS" else "❌ FAIL")

/-- The `for test_name, result in self.results.items()` loop. -/
def summaryRows : List (String × Bool) → M Unit
  | [] => pure ()
  | p :: rest => do
    emit (rowLine p)
    summaryRows rest

/-- The aggregate result line of the summary. -/
def overallLine (l : List (String × Bool)) : String :=
  "\n📊 Overall Result: " ++ toString (countTrues l) ++ "/" ++ toString l.length ++
    " tests passed"

def successLines : List String :=
  ["✅ All tests passed! Your Spotify API setup is working correctly.",
   "\n🎉 You" ++ apos ++ "re ready to use the Spotify Agent!"]

def troubleLines : List String :=
  ["❌ Some tests failed. Please check your setup.",
   "\n🔧 Troubleshooting tips:",
   "   • Verify your Client ID and Secret in .env file",
   "   • Check your internet connection",
   "   • Ensure your Spotify app is active in Developer Dashboard",
   "   • Verify no typos in environment variable names"]

/-- Body of `print_summary` (after its `print_header`). -/
def summaryBody : M Unit := do
  let c ← getCore
  summaryRows c.results
  emit (overallLine c.results)
  if countTrues c.results = c.results.length then do
    emit "✅ All tests passed! Your Spotify API setup is working correctly."
    emit ("\n🎉 You" ++ apos ++ "re ready to use the Spotify Agent!")
  else do
    emit "❌ Some tests failed. Please check your setup."
    emit "\n🔧 Troubleshooting tips:"
    emit "   • Verify your Client ID and Secret in .env file"
    emit "   • Check your internet connection"
    emit "   • Ensure your Spotify app is active in Developer Dashboard"
    emit "   • Verify no typos in environment variable names"

/-- `print_summary`: header then the summary body. -/
def print_summary : EffM Unit := fun st => liftCore summaryBody (pushHeader "Test Summary" st)

/-- `run_all_tests`: the suite header, the six checks in fixed order, each
under the runner catch, then the summary. -/
def run_all_tests (w : World) : EffM Unit := fun st =>
  let st1 := runnerStep "test_environment_variables" (test_environment_variables w)
    (pushHeader "Starting Spotify API Test Suite" st)
  let st2 := runnerStep "test_authentication" (test_authentication w) st1
  let st3 := runnerStep "test_api_connection" test_api_connection st2
  let st4 := runnerStep "test_playlist_access" test_playlist_access st3
  let st5 := runnerStep "test_search_functionality" test_search_functionality st4
  let st6 := runnerStep "test_audio_features" test_audio_features st5
  print_summary st6

/-- `quick_test`: the standalone fast path — banner, credential presence
check with early return, then construction, one search, and result prints,
all under one `try`/`except`. -/
def quick_test (w : World) : M Bool := do
  emit "🚀 Quick Spotify API Test"
  emit (String.mk (List.replicate 30 (Char.ofNat 61)))
  pyTry (do
    let client_id := pyOr (w.env "CLIENT_ID") (w.env "SPOTIFY_CLIENT_ID")
    let client_secret := pyOr (w.env "CLIENT_SECRET") (w.env "SPOTIFY_CLIENT_SECRET")
    if !strTruthy client_id || !strTruthy client_secret then do
      emit "❌ Missing credentials in .env file"
      pure false
    else do
      recordCall .clientCredentials
      let auth_manager ← liftExc (w.mkAuth client_id client_secret)
      recordCall .spotifyClient
      let cl ← liftExc (w.mkClient auth_manager 10 none)
      recordCall (.search "artist:Spotify" "playlist" 1)
      let results ← liftExc (cl.search "artist:Spotify" "playlist" 1)
      if truthy results then do
        emit "✅ Spotify API is working!"
        pure true
      else do
        emit "❌ API returned no results"
        pure false)
    (fun e => do
      emit ("❌ API test failed: " ++ e)
      pure false)

/-- The banner headlines of a console stream, in order. -/
def headersOf : List Out → List String
  | [] => []
  | .header s :: rest => s :: headersOf rest
  | .line _ :: rest => headersOf rest

/-- State after a top-level step, whether it returned or raised. -/
def stAfter {α} (m : EffM α) (st : St) : St :=
  match m st with
  | .ok _ s => s
  | .err _ s => s

@[simp] theorem headersOf_append (l1 l2 : List Out) :
    headersOf (l1 ++ l2) = headersOf l1 ++ headersOf l2 := by
  induction l1 with
  | nil => simp [headersOf]
  | cons o rest ih => cases o <;> simp [headersOf, ih]

@[simp] theorem headersOf_mapLine (ls : List String) :
    headersOf (ls.map Out.line) = [] := by
  induction ls with
  | nil => simp [headersOf]
  | cons s rest ih => simp [headersOf, ih]

/-- The `for` loop of `print_summary` prints one row per entry and never
raises. -/
theorem summaryRows_char (l : List (String × Bool)) (c : Core) :
    summaryRows l c = Res.ok () { c with lines := c.lines ++ l.map rowLine } := by
  induction l generalizing c with
  | nil => simp [summaryRows]
  | cons p rest ih => simp [summaryRows, ih]

/-- `print_summary` never raises: it prints the rows, the aggregate line and
one of the two banners. -/
theorem summaryBody_char (c : Core) :
    summaryBody c = Res.ok ()
      { c with lines := c.lines ++ c.results.map rowLine ++ [overallLine c.results] ++
        (if countTrues c.results = c.results.length then successLines else troubleLines) } := by
  obtain ⟨res, sp, calls, lines⟩ := c
  by_cases hc : countTrues res = res.length
  · simp [summaryBody, summaryRows_char, successLines, hc]
  · simp [summaryBody, summaryRows_char, troubleLines, hc]

/-- `self.results` as `__init__` creates it. -/
def initResults : List (String × Bool) :=
  [("environment", false), ("authentication", false), ("api_connection", false),
   ("playlist_access", false), ("search_functionality", false)]

/-- The five recorded check names, in insertion order. -/
def fiveKeys : List String :=
  ["environment", "authentication", "api_connection", "playlist_access",
   "search_functionality"]

/-- Key set (ordered) of the results dict. -/
def keysOf (l : List (String × Bool)) : List String := l.map Prod.fst

/-- Python dict lookup in the results dict. -/
def lookupB : List (String × Bool) → String → Option Bool
  | [], _ => none
  | (k, v) :: rest, key => if k = key then some v else lookupB rest key

/-- A fresh tester state (`__init__`). -/
def initCore : Core := ⟨initResults, none, [], []⟩

/-- A fresh tester state at the top level. -/
def initSt : St := ⟨initResults, none, [], []⟩

/-- A tester state whose authentication already succeeded with handle `cl`. -/
def coreWith (cl : Client) : Core := ⟨initResults, some cl, [], []⟩

theorem keysOf_pySetItem_of_mem (l : List (String × Bool)) (k : String) (b : Bool)
    (h : k ∈ keysOf l) : keysOf (pySetItem l k b) = keysOf l := by
  induction l with
  | nil => simp [keysOf] at h
  | cons p rest ih =>
    obtain ⟨k0, v0⟩ := p
    by_cases hk : k0 = k
    · simp [pySetItem, hk, keysOf]
    · simp [keysOf] at h
      rcases h with h | h
      · exact absurd h.symm hk
      · simp [pySetItem, hk, keysOf]
        exact ih (by simpa [keysOf] using h)

theorem lookupB_pySetItem_true (l : List (String × Bool)) (k j : String)
    (h : lookupB l j = some true) : lookupB (pySetItem l k true) j = some true := by
  induction l with
  | nil => simp [lookupB] at h
  | cons p rest ih =>
    obtain ⟨k0, v0⟩ := p
    by_cases hk : k0 = k
    · subst hk
      by_cases hj : k0 = j
      · subst hj
        simp [pySetItem, lookupB]
      · simp [pySetItem, lookupB, hj] at h ⊢
        exact h
    · by_cases hj : k0 = j
      · subst hj
        simp [lookupB] at h
        simp [pySetItem, hk, lookupB, h]
      · simp [lookupB, hj] at h
        simp [pySetItem, hk, lookupB, hj]
        exact ih h

theorem countTrues_pySetItem_true (l : List (String × Bool)) (k : String) :
    countTrues l ≤ countTrues (pySetItem l k true) := by
  induction l with
  | nil => simp [pySetItem, countTrues]
  | cons p rest ih =>
    obtain ⟨k0, v0⟩ := p
    by_cases hk : k0 = k
    · cases v0 <;> simp [pySetItem, hk, countTrues, List.filter] <;> omega
    · cases v0 <;> simp [pySetItem, hk, countTrues, List.filter] at ih ⊢ <;> omega

theorem keysOf_length (l : List (String × Bool)) : l.length = (keysOf l).length := by
  simp [keysOf]

/-- One runner step changes the results dict by at most setting one of the
five recorded keys to `true`. -/
def Rstep (a b : List (String × Bool)) : Prop :=
  b = a ∨ ∃ k, k ∈ fiveKeys ∧ b = pySetItem a k true

/-- The reachability invariant of the results dict relative to a start
value with the five keys. -/
def Inv (a b : List (String × Bool)) : Prop :=
  keysOf b = fiveKeys ∧ (∀ k, lookupB a k = some true → lookupB b k = some true) ∧
    countTrues a ≤ countTrues b

theorem inv_refl (a : List (String × Bool)) (hk : keysOf a = fiveKeys) : Inv a a :=
  ⟨hk, fun _ h => h, le_refl _⟩

theorem inv_step (a b c' : List (String × Bool)) (hab : Inv a b) (hbc : Rstep b c') :
    Inv a c' := by
  obtain ⟨hk, hmono, hcount⟩ := hab
  rcases hbc with rfl | ⟨k, hkmem, rfl⟩
  · exact ⟨hk, hmono, hcount⟩
  · refine ⟨?_, ?_, ?_⟩
    · rw [keysOf_pySetItem_of_mem _ _ _ (by rw [hk]; exact hkmem), hk]
    · exact fun j hj => lookupB_pySetItem_true _ _ _ (hmono j hj)
    · exact le_trans hcount (countTrues_pySetItem_true _ _)

@[simp] theorem pushHeader_headers (h : String) (st : St) :
    headersOf (pushHeader h st).log = headersOf st.log ++ [h] := by
  simp [pushHeader, headersOf]

theorem runnerStep_mkCheck_headers (n h : String) (b : M (Option Bool)) (st : St) :
    headersOf (runnerStep n (mkCheck h b) st).log = headersOf st.log ++ [h] := by
  unfold runnerStep mkCheck liftCore
  cases hb : b ⟨(pushHeader h st).results, (pushHeader h st).sp, (pushHeader h st).calls, []⟩ <;>
    simp [headersOf]

theorem step_env (w : World) (n : String) (st : St) :
    (runnerStep n (test_environment_variables w) st).results =
      if envRequired w then pySetItem st.results "environment" true else st.results := by
  simp [runnerStep, test_environment_variables, mkCheck, liftCore, pushHeader, envBody_char]

theorem step_auth (w : World) (n : String) (st : St) :
    (runnerStep n (test_authentication w) st).results =
      if authOk w then pySetItem st.results "authentication" true else st.results := by
  simp [runnerStep, test_authentication, mkCheck, liftCore, pushHeader, authBody_char]

theorem step_api (n : String) (st : St) :
    (runnerStep n test_api_connection st).results =
      if apiSuccess st.sp then pySetItem st.results "api_connection" true else st.results := by
  simp [runnerStep, test_api_connection, mkCheck, liftCore, pushHeader, apiBody_char]

theorem step_playlist (n : String) (st : St) :
    (runnerStep n test_playlist_access st).results =
      if playlistValue st.sp = some true then pySetItem st.results "playlist_access" true
      else st.results := by
  simp [runnerStep, test_playlist_access, mkCheck, liftCore, pushHeader, playlistBody_char]

theorem step_search (n : String) (st : St) :
    (runnerStep n test_search_functionality st).results =
      if searchOk st.sp then pySetItem st.results "search_functionality" true
      else st.results := by
  simp [runnerStep, test_search_functionality, mkCheck, liftCore, pushHeader, searchBody_char]

theorem step_audio (n : String) (st : St) :
    (runnerStep n test_audio_features st).results = st.results := by
  simp [runnerStep, test_audio_features, mkCheck, liftCore, pushHeader, audioBody_char]

theorem rstep_env (w : World) (n : String) (st : St) :
    Rstep st.results (runnerStep n (test_environment_variables w) st).results := by
  rw [step_env]
  by_cases h : envRequired w
  · exact Or.inr ⟨"environment", by simp [fiveKeys], by rw [if_pos h]⟩
  · exact Or.inl (by rw [if_neg h])

theorem rstep_auth (w : World) (n : String) (st : St) :
    Rstep st.results (runnerStep n (test_authentication w) st).results := by
  rw [step_auth]
  by_cases h : authOk w
  · exact Or.inr ⟨"authentication", by simp [fiveKeys], by rw [if_pos h]⟩
  · exact Or.inl (by rw [if_neg h])

theorem rstep_api (n : String) (st : St) :
    Rstep st.results (runnerStep n test_api_connection st).results := by
  rw [step_api]
  by_cases h : apiSuccess st.sp
  · exact Or.inr ⟨"api_connection", by simp [fiveKeys], by rw [if_pos h]⟩
  · exact Or.inl (by rw [if_neg h])

theorem rstep_playlist (n : String) (st : St) :
    Rstep st.results (runnerStep n test_playlist_access st).results := by
  rw [step_playlist]
  by_cases h : playlistValue st.sp = some true
  · exact Or.inr ⟨"playlist_access", by simp [fiveKeys], by rw [if_pos h]⟩
  · exact Or.inl (by rw [if_neg h])

theorem rstep_search (n : String) (st : St) :
    Rstep st.results (runnerStep n test_search_functionality st).results := by
  rw [step_search]
  by_cases h : searchOk st.sp
  · exact Or.inr ⟨"search_functionality", by simp [fiveKeys], by rw [if_pos h]⟩
  · exact Or.inl (by rw [if_neg h])

theorem rstep_audio (n : String) (st : St) :
    Rstep st.results (runnerStep n test_audio_features st).results := by
  rw [step_audio]
  exact Or.inl rfl

@[simp] theorem headersOf_mapLineComp {α : Type} (f : α → String) (l : List α) :
    headersOf (l.map (Out.line ∘ f)) = [] := by
  induction l with
  | nil => simp [headersOf]
  | cons a rest ih => simp [headersOf, ih]

/-- `print_summary` never raises, reads the results without changing them,
prints its own banner, and prints the aggregate line for the current
results. -/
theorem print_summary_run (st : St) :
    ∃ st2, print_summary st = StRes.ok () st2 ∧ st2.results = st.results ∧
      st2.sp = st.sp ∧ headersOf st2.log = headersOf st.log ++ ["Test Summary"] ∧
      Out.line (overallLine st.results) ∈ st2.log := by
  unfold print_summary liftCore
  rw [summaryBody_char]
  refine ⟨_, rfl, rfl, rfl, by simp [pushHeader, headersOf], ?_⟩
  simp [pushHeader]

/-- A world with no environment and failing constructors. -/
def wEmpty : World :=
  ⟨fun _ => none, fun _ _ => Except.error "invalid client credentials",
   fun _ _ _ => Except.error "invalid client"⟩

/-- A client whose every endpoint answers with an empty (falsy) dict. -/
def cEmpty : Client :=
  ⟨fun _ _ _ => .ok (.obj []), fun _ => .ok (.obj []),
   fun _ _ => .ok (.obj []), fun _ => .ok (.obj [])⟩

/-- A non-empty playlist object that lacks every printed metadata field. -/
def pNoName : JSON := .obj [("collaborative", .bool false)]

/-- A client whose playlist fetch returns `pNoName`. -/
def cPlBad : Client :=
  ⟨fun _ _ _ => .ok (.obj []), fun _ => .ok pNoName,
   fun _ _ => .ok (.obj []), fun _ => .ok (.obj [])⟩

/-- A search response with one item in the track list, the item lacking the
printed artist field. -/
def rC5 : JSON :=
  .obj [("tracks", .obj [("items", .arr [.obj [("name", .str "Shape of You")]])])]

/-- A client whose search returns `rC5`. -/
def cApiBad : Client :=
  ⟨fun _ _ _ => .ok rC5, fun _ => .ok (.obj []),
   fun _ _ => .ok (.obj []), fun _ => .ok (.obj [])⟩

/-- A fully well-formed playlist object. -/
def playlistGood : JSON :=
  .obj [("name", .str "Top 50"), ("description", .str "The global top 50"),
        ("followers", .obj [("total", .num 100)]),
        ("tracks", .obj [("total", .num 50)]), ("public", .bool true)]

/-- A tracks response whose item list is empty. -/
def tracksEmptyItems : JSON := .obj [("items", .arr [])]

/-- A client whose playlist endpoints answer with well-formed data. -/
def cGood : Client :=
  ⟨fun _ _ _ => .ok (.obj []), fun _ => .ok playlistGood,
   fun _ _ => .ok tracksEmptyItems, fun _ => .ok (.obj [])⟩

/-- A well-formed track item. -/
def trackGood : JSON :=
  .obj [("name", .str "Shape of You"),
        ("artists", .arr [.obj [("name", .str "Ed Sheeran")]]),
        ("duration_ms", .num 233712), ("id", .str "track1")]

/-- A search response with one fully well-formed track. -/
def rGood : JSON := .obj [("tracks", .obj [("items", .arr [trackGood])])]

/-- A client whose search returns `rGood`. -/
def cApiGood : Client :=
  ⟨fun _ _ _ => .ok rGood, fun _ => .ok (.obj []),
   fun _ _ => .ok (.obj []), fun _ => .ok (.obj [])⟩

/-- A search response carrying all four typed result lists, each with an
empty item list. -/
def rAllKeys : JSON :=
  .obj [("artists", tracksEmptyItems), ("tracks", tracksEmptyItems),
        ("playlists", tracksEmptyItems), ("albums", tracksEmptyItems)]

/-- A client whose search always answers `rAllKeys`. -/
def cSkip : Client :=
  ⟨fun _ _ _ => .ok rAllKeys, fun _ => .ok (.obj []),
   fun _ _ => .ok (.obj []), fun _ => .ok (.obj [])⟩

/-- A world with both credentials present. -/
def wFull : World :=
  ⟨fun k => if k = "CLIENT_ID" then some "id1"
    else if k = "CLIENT_SECRET" then some "secret1" else none,
   fun _ _ => .ok 0, fun _ _ _ => .ok cGood⟩

theorem lookupB_pySetItem_ne (l : List (String × Bool)) (k : String) (b : Bool)
    (j : String) (hj : j ≠ k) : lookupB (pySetItem l k b) j = lookupB l j := by
  induction l with
  | nil =>
    have hne : ¬(k = j) := fun h => hj h.symm
    simp [pySetItem, lookupB, hne]
  | cons p rest ih =>
    obtain ⟨k0, v0⟩ := p
    by_cases hk : k0 = k
    · subst hk
      have hne : ¬(k0 = j) := fun h => hj h.symm
      simp [pySetItem, lookupB, hne]
    · simp [pySetItem, hk, lookupB, ih]

/-- Claim C1: `run_all_tests` runs all six checks exactly once each, in the
fixed declared order, for every environment, constructor behaviour and
client behaviour (including raising on every remote call): the banner stream
always gains exactly the suite header, the six check headers in order, and
the summary header, and the runner itself never propagates an exception. -/
theorem c1_run_all_executes_all_checks (w : World) (st : St) :
    ∃ st2, run_all_tests w st = StRes.ok () st2 ∧
      headersOf st2.log = headersOf st.log ++
        ["Starting Spotify API Test Suite", "Testing Environment Variables",
         "Testing Authentication", "Testing API Connection",
         "Testing Playlist Access", "Testing Search Functionality",
         "Testing Audio Features", "Test Summary"] := by
  obtain ⟨st2, hps, hres, hsp, hh, hmem⟩ := print_summary_run
    (runnerStep "test_audio_features" test_audio_features
      (runnerStep "test_search_functionality" test_search_functionality
        (runnerStep "test_playlist_access" test_playlist_access
          (runnerStep "test_api_connection" test_api_connection
            (runnerStep "test_authentication" (test_authentication w)
              (runnerStep "test_environment_variables" (test_environment_variables w)
                (pushHeader "Starting Spotify API Test Suite" st)))))))
  refine ⟨st2, hps, ?_⟩
  rw [hh]
  simp only [test_audio_features, test_search_functionality, test_playlist_access,
    test_api_connection, test_authentication, test_environment_variables,
    runnerStep_mkCheck_headers, pushHeader_headers, List.append_assoc]
  simp

/-- Claim C2: the passed-count printed by `print_summary` is the number of
`true` values among the entries of the recorded results dict (the aggregate
line interpolates `countTrues` over `length` of that dict, which holds
exactly the five recorded names), and `test_audio_features` never writes to
the dict, so its outcome cannot contribute to the count or the total. -/
theorem c2_summary_passed_count (st : St) (h5 : st.results.length = 5) :
    (∃ st2, print_summary st = StRes.ok () st2 ∧
       Out.line (overallLine st.results) ∈ st2.log) ∧
    st.results.length = 5 ∧
    (∀ c : Core, (coreAfter audioBody c).results = c.results) := by
  obtain ⟨st2, h1, _, _, _, hmem⟩ := print_summary_run st
  exact ⟨⟨st2, h1, hmem⟩, h5, fun c => by simp [coreAfter, audioBody_char]⟩

theorem c2_witness :
    Out.line (overallLine initSt.results) ∈ (stAfter print_summary initSt).log ∧
    initSt.results.length = 5 := by
  obtain ⟨⟨st2, h1, hmem⟩, h5, _⟩ := c2_summary_passed_count initSt rfl
  exact ⟨by simp [stAfter, h1]; exact hmem, h5⟩

/-- Claim C3 counterexample: with a client whose playlist fetch (resp. track
search) returns an empty dict, `test_playlist_access` and
`test_audio_features` finish without raising yet return no boolean at all
(the implicit Python `None`), refuting "returns a boolean success flag on
every execution path". -/
theorem c3_counterexample :
    valAfter playlistBody (coreWith cEmpty) = some none ∧
    valAfter audioBody (coreWith cEmpty) = some none := ⟨rfl, rfl⟩

/-- Claim C3 amended: the environment, authentication, API-connection and
search checks do return an explicit boolean on every path and for every
client response; the playlist and audio checks may instead fall off the end
returning `None`, and whenever they do so they have recorded nothing — the
results dict and the shared handle are untouched. -/
theorem c3_amended_boolean_returns (w : World) (c : Core) :
    (∃ b d, envBody w c = Res.ok (some b) d) ∧
    (∃ b d, authBody w c = Res.ok (some b) d) ∧
    (∃ b d, apiBody c = Res.ok (some b) d) ∧
    (∃ b d, searchBody c = Res.ok (some b) d) ∧
    (∀ d, playlistBody c = Res.ok none d → d.results = c.results ∧ d.sp = c.sp) ∧
    (∀ d, audioBody c = Res.ok none d → d.results = c.results ∧ d.sp = c.sp) := by
  refine ⟨⟨envRequired w, _, envBody_char w c⟩, ⟨authOk w, _, authBody_char w c⟩,
    ⟨apiSuccess c.sp, _, apiBody_char c⟩, ⟨searchOk c.sp, _, searchBody_char c⟩, ?_, ?_⟩
  · intro d h
    rw [playlistBody_char] at h
    injection h with hv hd
    constructor
    · rw [← hd]
      simp [hv]
    · rw [← hd]
  · intro d h
    rw [audioBody_char] at h
    injection h with hv hd
    exact ⟨by rw [← hd], by rw [← hd]⟩

theorem c3_amended_witness :
    (∃ b d, envBody wEmpty (coreWith cEmpty) = Res.ok (some b) d) ∧
    (coreAfter playlistBody (coreWith cEmpty)).results = (coreWith cEmpty).results ∧
    (coreAfter audioBody (coreWith cEmpty)).sp = (coreWith cEmpty).sp := by
  have h := c3_amended_boolean_returns wEmpty (coreWith cEmpty)
  exact ⟨h.1, (h.2.2.2.2.1 _ rfl).1, (h.2.2.2.2.2 _ rfl).2⟩

/-- Claim C4 counterexample: a playlist fetch that returns a NON-empty
object (truthy) lacking the printed `name` field makes the check return
`False` and leave `playlist_access` false — refuting "succeeds if and only
if the playlist fetch returns a non-empty object". -/
theorem c4_counterexample :
    truthy pNoName = true ∧
    cPlBad.playlist "37i9dQZEVXbMDoHDwVN2tF" = Except.ok pNoName ∧
    valAfter playlistBody (coreWith cPlBad) = some (some false) ∧
    lookupB (coreAfter playlistBody (coreWith cPlBad)).results "playlist_access" =
      some false := ⟨rfl, rfl, rfl, rfl⟩

/-- Claim C4 amended: the check never raises; it succeeds (returns true and
records `playlist_access`) iff the playlist fetch returns a non-empty object
AND all the printed metadata fields and the nested sample-track section are
accessible without an exception; on any other outcome (including exceptions
from the nested track fetch, which are caught) the entry is left unchanged. -/
theorem c4_amended_playlist_success (c : Core) :
    ∃ d, playlistBody c = Res.ok (playlistValue c.sp) d ∧ d.sp = c.sp ∧
      d.results = (if playlistValue c.sp = some true
        then pySetItem c.results "playlist_access" true else c.results) ∧
      (∀ cl, c.sp = some cl →
        (playlistValue c.sp = some true ↔
          ∃ p, cl.playlist "37i9dQZEVXbMDoHDwVN2tF" = Except.ok p ∧ truthy p = true ∧
            playlistMetaOk p = true ∧
            ∃ t, cl.playlist_tracks "37i9dQZEVXbMDoHDwVN2tF" 3 = Except.ok t ∧
              tracksSectionOk t = true)) := by
  refine ⟨_, playlistBody_char c, rfl, rfl, ?_⟩
  intro cl hsp
  rw [hsp]
  unfold playlistValue
  cases hp : cl.playlist "37i9dQZEVXbMDoHDwVN2tF" with
  | error e => simp [hp]
  | ok p =>
    by_cases htp : truthy p
    · by_cases hm : playlistMetaOk p
      · cases hpt : cl.playlist_tracks "37i9dQZEVXbMDoHDwVN2tF" 3 with
        | error e => simp [hp, htp, hm, hpt]
        | ok t =>
          by_cases hts : tracksSectionOk t
          · simp [hp, htp, hm, hpt, hts]
          · simp [hp, htp, hm, hpt, hts]
      · simp [hp, htp, hm]
    · simp [hp, htp]

theorem c4_amended_witness :
    playlistValue (coreWith cGood).sp = some true ∧
    (coreAfter playlistBody (coreWith cGood)).results =
      pySetItem initResults "playlist_access" true := by
  obtain ⟨d, hd, hsp, hres, hiff⟩ := c4_amended_playlist_success (coreWith cGood)
  have hv : playlistValue (coreWith cGood).sp = some true :=
    (hiff cGood rfl).2 ⟨playlistGood, rfl, rfl, rfl, tracksEmptyItems, rfl, rfl⟩
  refine ⟨hv, ?_⟩
  have he : coreAfter playlistBody (coreWith cGood) = d := by simp [coreAfter, hd]
  rw [he, hres, if_pos hv]
  rfl

/-- Claim C5 counterexample: a search response whose track list holds one
item that lacks the printed artist field makes the check return `False` and
leave `api_connection` false — refuting "succeeds if and only if the
response contains a track list with at least one item". -/
theorem c5_counterexample :
    jGet rC5 "tracks" =
      some (.obj [("items", .arr [.obj [("name", .str "Shape of You")]])]) ∧
    cApiBad.search "artist:Ed Sheeran" "track" 1 = Except.ok rC5 ∧
    valAfter apiBody (coreWith cApiBad) = some (some false) ∧
    lookupB (coreAfter apiBody (coreWith cApiBad)).results "api_connection" =
      some false := ⟨rfl, rfl, rfl, rfl⟩

/-- Claim C5 amended: the check performs exactly one search (and none when
the handle is unset), never raises, and succeeds (returns true and records
`api_connection`) iff the response is truthy, contains the `tracks` key, and
the first item with its printed fields (name, first artist name, duration)
is accessible; otherwise it returns false and the entry stays unchanged. -/
theorem c5_amended_api_success (c : Core) :
    ∃ d, apiBody c = Res.ok (some (apiSuccess c.sp)) d ∧ d.sp = c.sp ∧
      d.results = (if apiSuccess c.sp then pySetItem c.results "api_connection" true
        else c.results) ∧
      d.calls = c.calls ++ apiCallsOf c.sp ∧
      (∀ cl, c.sp = some cl →
        (apiSuccess c.sp = true ↔
          ∃ r, cl.search "artist:Ed Sheeran" "track" 1 = Except.ok r ∧ truthy r = true ∧
            pyInPure "tracks" r = some true ∧ apiTrackOk r = true)) := by
  refine ⟨_, apiBody_char c, rfl, rfl, rfl, ?_⟩
  intro cl hsp
  rw [hsp]
  unfold apiSuccess
  cases hs : cl.search "artist:Ed Sheeran" "track" 1 with
  | error e => simp [hs]
  | ok r =>
    by_cases htr : truthy r
    · cases hin : pyInPure "tracks" r with
      | none => simp [hs, htr, hin]
      | some b =>
        cases b with
        | false => simp [hs, htr, hin]
        | true =>
          by_cases hok : apiTrackOk r
          · simp [hs, htr, hin, hok]
          · simp [hs, htr, hin, hok]
    · simp [hs, htr]

theorem c5_amended_witness :
    apiSuccess (coreWith cApiGood).sp = true ∧
    (coreAfter apiBody (coreWith cApiGood)).results =
      pySetItem initResults "api_connection" true ∧
    afterCalls apiBody (coreWith cApiGood) = [CallEv.search "artist:Ed Sheeran" "track" 1] := by
  obtain ⟨d, hd, hsp, hres, hcalls, hiff⟩ := c5_amended_api_success (coreWith cApiGood)
  have hv : apiSuccess (coreWith cApiGood).sp = true :=
    (hiff cApiGood rfl).2 ⟨rGood, rfl, rfl, rfl, rfl⟩
  refine ⟨hv, ?_, ?_⟩
  · have he : coreAfter apiBody (coreWith cApiGood) = d := by simp [coreAfter, hd]
    rw [he, hres, if_pos hv]
    rfl
  · have he : afterCalls apiBody (coreWith cApiGood) = d.calls := by simp [afterCalls, hd]
    rw [he, hcalls]
    rfl

/-- Claim C6: the search check never raises; it succeeds — returning true
and recording `search_functionality` — exactly when all four fixed queries
complete without an uncaught exception, and a query whose response carries
the typed key with an EMPTY item list is skipped silently (it counts as
completing, not as failure). -/
theorem c6_search_loop (c : Core) :
    (∃ d, searchBody c = Res.ok (some (searchOk c.sp)) d ∧ d.sp = c.sp ∧
      d.results = (if searchOk c.sp then pySetItem c.results "search_functionality" true
        else c.results)) ∧
    (searchOk c.sp = true ↔ ∃ cl, c.sp = some cl ∧
      ∀ p ∈ searchQueries, queryOk cl p.1 p.2 = true) ∧
    (∀ (cl : Client) (q ty : String) (r typed : JSON),
      cl.search q ty 1 = Except.ok r → truthy r = true →
      pyInPure (ty ++ "s") r = some true → jGet r (ty ++ "s") = some typed →
      jGet typed "items" = some (JSON.arr []) → queryOk cl q ty = true) := by
  refine ⟨⟨_, searchBody_char c, rfl, rfl⟩, ?_, ?_⟩
  · cases hsp : c.sp with
    | none => simp [searchOk]
    | some cl => simp [searchOk, List.all_eq_true]
  · intro cl q ty r typed hs htr hin hg hitems
    unfold queryOk
    rw [hs]
    simp [htr, hin, hg, hitems, truthy]

theorem c6_witness :
    queryOk cSkip "Dua Lipa" "artist" = true ∧ searchOk (some cSkip) = true := by
  have h := c6_search_loop (coreWith cSkip)
  have hq : ∀ p ∈ searchQueries, queryOk cSkip p.1 p.2 = true := by
    intro p hp
    simp [searchQueries] at hp
    rcases hp with hp | hp | hp | hp <;> subst hp <;>
      exact h.2.2 cSkip _ _ rAllKeys tracksEmptyItems rfl rfl rfl rfl rfl
  exact ⟨hq ("Dua Lipa", "artist") (by simp [searchQueries]), h.2.1.2 ⟨cSkip, rfl, hq⟩⟩

/-- Claim C7: if the authenticator or client construction raises, the check
returns false, the results dict is untouched (`authentication` stays at its
previous value) and the shared handle keeps its pre-call value; moreover the
handle can change only on the success path (return value `True`). -/
theorem c7_auth_error_leaves_handle (w : World) (c : Core) :
    (∀ e, authConstruct w = Except.error e →
      ∃ d, authBody w c = Res.ok (some false) d ∧ d.sp = c.sp ∧ d.results = c.results) ∧
    (∀ v d, authBody w c = Res.ok v d → v ≠ some true → d.sp = c.sp) := by
  constructor
  · intro e he
    have hok : authOk w = false := by simp [authOk, he]
    have hchar := authBody_char w c
    rw [hok, he] at hchar
    exact ⟨_, hchar, rfl, rfl⟩
  · intro v d h hne
    rw [authBody_char] at h
    injection h with hv hd
    by_cases hok : authOk w
    · exact absurd (by rw [← hv, hok]) hne
    · rw [← hd]
      cases hcon : authConstruct w with
      | ok cl => exact absurd (by simp [authOk, hcon]) hok
      | error e => simp [hcon]

theorem c7_witness :
    valAfter (authBody wEmpty) initCore = some (some false) ∧
    (coreAfter (authBody wEmpty) initCore).sp = initCore.sp ∧
    (coreAfter (authBody wEmpty) initCore).results = initCore.results := by
  obtain ⟨d, hd, hsp, hres⟩ :=
    (c7_auth_error_leaves_handle wEmpty initCore).1 "invalid client credentials" rfl
  exact ⟨by simp [valAfter, hd], by simp [coreAfter, hd, hsp],
    by simp [coreAfter, hd, hres]⟩

/-- Claim C8: the environment check returns true and sets the `environment`
entry iff both credentials are present and non-empty (each read under either
of its two accepted names); otherwise it returns false and leaves the entry
unchanged; in both cases every other entry of the dict, the handle and the
call trace are untouched. -/
theorem c8_environment_check (w : World) (c : Core) :
    ∃ d, envBody w c = Res.ok (some (envRequired w)) d ∧ d.sp = c.sp ∧
      d.calls = c.calls ∧
      d.results = (if envRequired w then pySetItem c.results "environment" true
        else c.results) ∧
      (∀ k, k ≠ "environment" → lookupB d.results k = lookupB c.results k) := by
  refine ⟨_, envBody_char w c, rfl, rfl, rfl, ?_⟩
  intro k hk
  dsimp only
  by_cases h : envRequired w
  · rw [if_pos h]
    exact lookupB_pySetItem_ne _ _ _ _ hk
  · rw [if_neg h]

theorem c8_witness :
    envRequired wFull = true ∧
    (∃ d, envBody wFull initCore = Res.ok (some (envRequired wFull)) d ∧
      lookupB d.results "authentication" = lookupB initCore.results "authentication") := by
  obtain ⟨d, h1, _, _, _, h5⟩ := c8_environment_check wFull initCore
  exact ⟨rfl, d, h1, h5 _ (by decide)⟩

/-- Claim C9: starting from a results dict with exactly the five recorded
keys, a full run keeps the key set fixed, never flips an entry from true
back to false, keeps the count of true entries non-decreasing, and ends with
total 5; each runner step either leaves the dict unchanged or sets exactly
the entry named after that check (and no other key) to true, and the
audio-features check never writes at all. -/
theorem c9_results_invariant (w : World) (st : St)
    (hk : keysOf st.results = fiveKeys) :
    ∃ st2, run_all_tests w st = StRes.ok () st2 ∧
      keysOf st2.results = fiveKeys ∧
      (∀ k, lookupB st.results k = some true → lookupB st2.results k = some true) ∧
      countTrues st.results ≤ countTrues st2.results ∧
      st2.results.length = 5 ∧
      (∀ st' : St,
        (runnerStep "test_environment_variables" (test_environment_variables w) st').results
          = st'.results ∨
        (runnerStep "test_environment_variables" (test_environment_variables w) st').results
          = pySetItem st'.results "environment" true) ∧
      (∀ st' : St,
        (runnerStep "test_authentication" (test_authentication w) st').results = st'.results ∨
        (runnerStep "test_authentication" (test_authentication w) st').results
          = pySetItem st'.results "authentication" true) ∧
      (∀ st' : St,
        (runnerStep "test_api_connection" test_api_connection st').results = st'.results ∨
        (runnerStep "test_api_connection" test_api_connection st').results
          = pySetItem st'.results "api_connection" true) ∧
      (∀ st' : St,
        (runnerStep "test_playlist_access" test_playlist_access st').results = st'.results ∨
        (runnerStep "test_playlist_access" test_playlist_access st').results
          = pySetItem st'.results "playlist_access" true) ∧
      (∀ st' : St,
        (runnerStep "test_search_functionality" test_search_functionality st').results
          = st'.results ∨
        (runnerStep "test_search_functionality" test_search_functionality st').results
          = pySetItem st'.results "search_functionality" true) ∧
      (∀ st' : St,
        (runnerStep "test_audio_features" test_audio_features st').results = st'.results) := by
  obtain ⟨st2, hps, hres2, hsp2, hh2, hmem2⟩ := print_summary_run
    (runnerStep "test_audio_features" test_audio_features
      (runnerStep "test_search_functionality" test_search_functionality
        (runnerStep "test_playlist_access" test_playlist_access
          (runnerStep "test_api_connection" test_api_connection
            (runnerStep "test_authentication" (test_authentication w)
              (runnerStep "test_environment_variables" (test_environment_variables w)
                (pushHeader "Starting Spotify API Test Suite" st)))))))
  have i0 : Inv st.results (pushHeader "Starting Spotify API Test Suite" st).results :=
    inv_refl _ hk
  have i1 := inv_step _ _ _ i0 (rstep_env w "test_environment_variables" _)
  have i2 := inv_step _ _ _ i1 (rstep_auth w "test_authentication" _)
  have i3 := inv_step _ _ _ i2 (rstep_api "test_api_connection" _)
  have i4 := inv_step _ _ _ i3 (rstep_playlist "test_playlist_access" _)
  have i5 := inv_step _ _ _ i4 (rstep_search "test_search_functionality" _)
  have i6 := inv_step _ _ _ i5 (rstep_audio "test_audio_features" _)
  refine ⟨st2, hps, ?_, ?_, ?_, ?_, ?_, ?_, ?_, ?_, ?_, ?_⟩
  · rw [hres2]; exact i6.1
  · intro k hktrue; rw [hres2]; exact i6.2.1 k hktrue
  · rw [hres2]; exact i6.2.2
  · rw [hres2, keysOf_length, i6.1]; rfl
  · intro st'
    rw [step_env]
    by_cases h : envRequired w
    · exact Or.inr (by rw [if_pos h])
    · exact Or.inl (by rw [if_neg h])
  · intro st'
    rw [step_auth]
    by_cases h : authOk w
    · exact Or.inr (by rw [if_pos h])
    · exact Or.inl (by rw [if_neg h])
  · intro st'
    rw [step_api]
    by_cases h : apiSuccess st'.sp
    · exact Or.inr (by rw [if_pos h])
    · exact Or.inl (by rw [if_neg h])
  · intro st'
    rw [step_playlist]
    by_cases h : playlistValue st'.sp = some true
    · exact Or.inr (by rw [if_pos h])
    · exact Or.inl (by rw [if_neg h])
  · intro st'
    rw [step_search]
    by_cases h : searchOk st'.sp
    · exact Or.inr (by rw [if_pos h])
    · exact Or.inl (by rw [if_neg h])
  · exact fun st' => step_audio _ st'

theorem c9_witness :
    keysOf (stAfter (run_all_tests wEmpty) initSt).results = fiveKeys ∧
    (stAfter (run_all_tests wEmpty) initSt).results.length = 5 := by
  obtain ⟨st2, hrun, hk2, _, _, h5, _⟩ := c9_results_invariant wEmpty initSt rfl
  have he : stAfter (run_all_tests wEmpty) initSt = st2 := by simp [stAfter, hrun]
  rw [he]
  exact ⟨hk2, h5⟩

/-- Claim C10: whenever either credential is absent or empty under both of
its accepted names, `quick_test` prints the missing-credentials notice and
returns false before constructing the authenticator or the client — the
instrumented call trace shows no construction and no remote call, and state
is otherwise untouched. -/
theorem c10_quick_missing_credentials (w : World) (c : Core)
    (h : credPresent w "CLIENT_ID" "SPOTIFY_CLIENT_ID" = false ∨
         credPresent w "CLIENT_SECRET" "SPOTIFY_CLIENT_SECRET" = false) :
    ∃ d, quick_test w c = Res.ok false d ∧ d.calls = c.calls ∧ d.results = c.results ∧
      d.sp = c.sp := by
  have hcond : (!strTruthy (pyOr (w.env "CLIENT_ID") (w.env "SPOTIFY_CLIENT_ID")) ||
      !strTruthy (pyOr (w.env "CLIENT_SECRET") (w.env "SPOTIFY_CLIENT_SECRET"))) = true := by
    rw [strTruthy_pyOr, strTruthy_pyOr]
    rcases h with h | h
    · have h' : (strTruthy (w.env "CLIENT_ID") || strTruthy (w.env "SPOTIFY_CLIENT_ID")) =
        false := h
      simp [h']
    · have h' : (strTruthy (w.env "CLIENT_SECRET") ||
        strTruthy (w.env "SPOTIFY_CLIENT_SECRET")) = false := h
      simp [h']
  obtain ⟨res, sp, calls, lines⟩ := c
  refine ⟨⟨res, sp, calls, lines ++ ["🚀 Quick Spotify API Test",
    String.mk (List.replicate 30 (Char.ofNat 61)), "❌ Missing credentials in .env file"]⟩,
    ?_, rfl, rfl, rfl⟩
  simp [quick_test, hcond]

theorem c10_witness :
    valAfter (quick_test wEmpty) initCore = some false ∧
    (coreAfter (quick_test wEmpty) initCore).calls = initCore.calls := by
  obtain ⟨d, hd, hc, _, _⟩ := c10_quick_missing_credentials wEmpty initCore (Or.inl rfl)
  exact ⟨by simp [valAfter, hd], by simp [coreAfter, hd, hc]⟩

end Spotify
